import Mathlib

/-!
Shallow embedding of the points-settlement and odds-computation core of
the mood/weather speculation application (src/mood_speculator_v2.py),
together with proofs settling the frozen claims about it.

Modelling conventions, used consistently below:

* Python floats are modelled as exact rationals (`ℚ`).
* Python `round(x, n)` rounds half to even on binary floats; it is
  modelled here by `round` (half away from zero upward on `ℚ`).  No
  theorem below depends on the tie-breaking rule, because every claim
  compares two expressions built from the same rounding function.
* Calendar dates are modelled as integers (day numbers); timestamps as
  integers (seconds).  ISO timestamp strings in the source compare
  lexicographically, which agrees with chronological order, so an
  integer timeline is a faithful image.
* Database tables are lists of rows; SQL queries are translated to list
  operations row by row, keeping the source WHERE clauses and update
  order.
-/

namespace MoodSpec

/-- Python `round(x, 2)`, used by the odds engine. -/
def round2 (q : ℚ) : ℚ := ((round (q * 100) : ℤ) : ℚ) / 100

/-- Python `round(x, 6)`, the 6-decimal convention of the balance ledger. -/
def round6 (q : ℚ) : ℚ := ((round (q * 1000000) : ℤ) : ℚ) / 1000000

/-!
## Fixed offset-to-odds table

Source: `PPP_ODDS` (dict literal) and `ppp_odds_for_offset`,
src/mood_speculator_v2.py lines 952-961.  The dict maps offset 0 to
`None` and offsets 1..31 to a base odds value; `dict.get(d, None)`
yields `None` for all other keys.
-/

/-- The `PPP_ODDS` dict: association list of the non-`None` entries. -/
def PPP_ODDS : List (ℤ × ℚ) :=
  [(1, 1.0), (2, 1.0), (3, 1.1), (4, 1.2), (5, 1.3), (6, 1.4), (7, 1.5),
   (8, 1.6), (9, 1.7), (10, 1.8),
   (11, 2.0), (12, 2.0), (13, 2.0), (14, 2.0), (15, 2.0), (16, 2.0),
   (17, 2.0), (18, 2.0), (19, 2.5), (20, 2.5),
   (21, 2.4), (22, 2.3), (23, 2.2), (24, 2.2), (25, 2.0), (26, 2.1),
   (27, 2.4), (28, 2.7), (29, 2.8), (30, 2.9), (31, 3.0)]

/-- `ppp_odds_for_offset(d) = PPP_ODDS.get(d, None)` (offset 0 is bound
to `None` in the dict, hence also yields `none` here). -/
def ppp_odds_for_offset (d : ℤ) : Option ℚ :=
  (PPP_ODDS.find? (fun e => e.1 = d)).map (fun e => e.2)

/-- The base odds value at an offset, defaulting to 0 outside the table
(only used at offsets 1..31 where the table is populated). -/
def pppOddsVal (d : ℤ) : ℚ := (ppp_odds_for_offset d).getD 0

/-- Chaining adjacent-step inequalities of an integer-indexed table into
monotonicity over a whole range. -/
lemma mono_of_adjacent (f : ℤ → ℚ) (a b : ℤ)
    (h : ∀ d : ℤ, a ≤ d → d < b → f d ≤ f (d + 1)) :
    ∀ d₁ d₂ : ℤ, a ≤ d₁ → d₁ ≤ d₂ → d₂ ≤ b → f d₁ ≤ f d₂ := by
  intro d₁ d₂ ha h12 hb
  revert hb
  refine @Int.le_induction (fun n => n ≤ b → f d₁ ≤ f n) d₁ ?_ ?_ d₂ h12
  · intro _
    exact le_refl _
  · intro n hn ih hb
    exact le_trans (ih (by omega)) (h n (by omega) (by omega))

lemma pppOddsVal_adjacent_low :
    ∀ d : ℤ, 1 ≤ d → d < 20 → pppOddsVal d ≤ pppOddsVal (d + 1) := by
  intro d h1 h2
  interval_cases d <;>
    norm_num [pppOddsVal, ppp_odds_for_offset, PPP_ODDS, List.find?]

lemma pppOddsVal_adjacent_high :
    ∀ d : ℤ, 25 ≤ d → d < 31 → pppOddsVal d ≤ pppOddsVal (d + 1) := by
  intro d h1 h2
  interval_cases d <;>
    norm_num [pppOddsVal, ppp_odds_for_offset, PPP_ODDS, List.find?]

/-- C6 counterexample: the table is not monotone over 1..31; it reads
2.5 at offset 20 but 2.4 at offset 21. -/
theorem ppp_odds_table_not_monotone :
    ¬ (∀ d₁ d₂ : ℤ, 1 ≤ d₁ → d₁ ≤ d₂ → d₂ ≤ 31 →
        pppOddsVal d₁ ≤ pppOddsVal d₂) := by
  intro h
  have h20 := h 20 21 (by norm_num) (by norm_num) (by norm_num)
  have e20 : pppOddsVal 20 = 5/2 := by
    norm_num [pppOddsVal, ppp_odds_for_offset, PPP_ODDS, List.find?]
  have e21 : pppOddsVal 21 = 12/5 := by
    norm_num [pppOddsVal, ppp_odds_for_offset, PPP_ODDS, List.find?]
  rw [e20, e21] at h20
  norm_num at h20

/-- C6 (amended): the table is monotone on the near range 1..20 and on
the far range 25..31, but dips between offsets 20 and 25 (2.5 at 19-20
down to 2.0 at 25) before rising again to 3.0 at offset 31. -/
theorem ppp_odds_table_piecewise_monotone :
    (∀ d₁ d₂ : ℤ, 1 ≤ d₁ → d₁ ≤ d₂ → d₂ ≤ 20 →
        pppOddsVal d₁ ≤ pppOddsVal d₂) ∧
    (∀ d₁ d₂ : ℤ, 25 ≤ d₁ → d₁ ≤ d₂ → d₂ ≤ 31 →
        pppOddsVal d₁ ≤ pppOddsVal d₂) :=
  ⟨mono_of_adjacent pppOddsVal 1 20 pppOddsVal_adjacent_low,
   mono_of_adjacent pppOddsVal 25 31 pppOddsVal_adjacent_high⟩

/-- Witness for the amended C6 theorem at concrete offsets. -/
theorem ppp_odds_table_piecewise_monotone_witness :
    pppOddsVal 5 ≤ pppOddsVal 19 ∧ pppOddsVal 26 ≤ pppOddsVal 30 :=
  ⟨ppp_odds_table_piecewise_monotone.1 5 19 (by norm_num) (by norm_num)
      (by norm_num),
   ppp_odds_table_piecewise_monotone.2 26 30 (by norm_num) (by norm_num)
      (by norm_num)⟩

/-!
## Data model

Row types for the tables the claims touch, translated from the
SQLAlchemy models and the startup ALTER TABLE migrations.  Nullable
columns are `Option`; columns the code always reads through
`COALESCE(col, '')` are modelled directly as `String`.
-/

/-- Table `user` (model `User`): the wallet columns used by the core.
`points` is nullable in old rows (the code coalesces it), and
`bonus_points` is added by a migration, hence optional. -/
structure UserRow where
  id : ℕ
  points : Option ℚ
  bonus_points : Option ℚ
  bolts : ℤ
  deriving DecidableEq

/-- Table `ppp_bet` (model `PPPBet` plus migrated columns).
`station_id` is the `COALESCE(station_id,'')` view used by every query.
`target_utc` models `_to_utc_iso(COALESCE(target_dt, bet_date || 'T' ||
COALESCE(target_time,'18:00')))`: the UTC instant of the wager target,
`none` when that string does not parse.  `preset_outcome` is the column
named in the resolver query text; the live schema never creates it (see
the C2/C8 discussion below). -/
structure PPPBetRow where
  id : ℕ
  user_id : ℕ
  bet_date : ℤ
  choice : String
  amount : ℚ
  odds : ℚ
  status : String
  station_id : String
  locked_for_trade : Bool
  funded_from_balance : Bool
  target_time : String
  target_utc : Option ℤ
  verdict : Option String
  outcome : Option String
  preset_outcome : Option String
  observed_mm : Option ℚ
  observed_at : Option ℤ
  resolved_at : Option ℤ
  deriving DecidableEq

/-- Table `wet_bets` (model `WetBet`).  `slot_dt` is the naive local
hour slot as an instant on the common timeline. -/
structure WetBetRow where
  id : ℕ
  user_id : ℕ
  slot_dt : ℤ
  target_pct : ℤ
  amount : ℚ
  odds : ℚ
  status : String
  observed_pct : Option ℤ
  outcome : Option String
  payout : Option ℚ
  resolved_at : Option ℤ
  dismissed_at : Option ℤ
  deriving DecidableEq

/-- Table `ppp_boosts` (model `PPPBoost`): one additive boost
accumulation row per (user, date, station scope); `station_id` is the
`COALESCE(station_id,'')` view. -/
structure BoostRow where
  user_id : ℕ
  bet_date : ℤ
  station_id : String
  value : ℚ
  deriving DecidableEq

/-- Table `bet_listing` (model `BetListing`).  `bet_id` and
`payload_ask_price` are the `payload` JSON fields `bet_id` and
`ask_price` that the trade code reads. -/
structure ListingRow where
  id : ℕ
  user_id : ℕ
  status : String
  bet_id : Option ℕ
  ask_price : Option ℚ
  payload_ask_price : Option ℚ
  buyer_id : Option ℕ
  sale_price : Option ℚ
  sold_at : Option ℤ
  deriving DecidableEq

/-- Table `art_bets` (model `ArtBet`): only the ledger-relevant fields. -/
structure ArtBetRow where
  user_id : ℕ
  amount : ℚ
  payout : ℚ
  deriving DecidableEq

/-- Table `humidity_obs` (model `HumidityObservation`). -/
structure HumidityObsRow where
  station_id : String
  obs_time : ℤ
  humidity : ℚ
  deriving DecidableEq

/-- Table `meteo_obs_hourly`, as read by `_first_observation_after`. -/
structure MeteoObsRow where
  station_id : String
  ts_utc : ℤ
  rain_mm : Option ℚ
  code : Option ℤ
  deriving DecidableEq

/-- The persisted state the claims quantify over. -/
structure DB where
  users : List UserRow
  ppp_bets : List PPPBetRow
  wet_bets : List WetBetRow
  boosts : List BoostRow
  listings : List ListingRow
  art_bets : List ArtBetRow
  humidity_obs : List HumidityObsRow
  meteo_obs : List MeteoObsRow
  deriving DecidableEq

def findUser (db : DB) (uid : ℕ) : Option UserRow :=
  db.users.find? (fun u => u.id = uid)

/-!
## Balance Ledger: `remaining_points`

Source: `remaining_points`, src/mood_speculator_v2.py lines 1054-1218.
The `POINTS_RECONCILE` environment switch is the `reconcile` argument.
The trade table exists in this schema, and the `seller_id` fallback
column of `_sum_trade_earned` does not, so that fallback query fails
and contributes 0.0, exactly as the source's exception handler does.
-/

/-- `_sum_price_generic`: sum `sale_price`; if that sum is not positive,
fall back to summing the payload `ask_price`. -/
def sum_price_generic (rows : List ListingRow) : ℚ :=
  let v := (rows.map (fun l => l.sale_price.getD 0)).sum
  if 0 < v then v
  else (rows.map (fun l => l.payload_ask_price.getD 0)).sum

/-- `_sum_trade_spent`: SOLD listings bought by this user. -/
def sum_trade_spent (db : DB) (uid : ℕ) : ℚ :=
  sum_price_generic (db.listings.filter
    (fun l => l.status = "SOLD" ∧ l.buyer_id = some uid))

/-- `_sum_trade_earned`: SOLD listings sold by this user; the
`seller_id` retry raises (column absent) and yields 0. -/
def sum_trade_earned (db : DB) (uid : ℕ) : ℚ :=
  let v := sum_price_generic (db.listings.filter
    (fun l => l.status = "SOLD" ∧ l.user_id = uid))
  if 0 < v then v else 0

/-- The derived ledger of `remaining_points` (branch B of the source),
before the floor at 0 and 6-decimal rounding. -/
def ledger_raw (db : DB) (uid : ℕ) (bonus_now : ℚ) : ℚ :=
  let ppp_active_funded := ((db.ppp_bets.filter (fun b =>
      b.user_id = uid ∧ b.status = "ACTIVE" ∧ b.funded_from_balance)).map
      (fun b => b.amount)).sum
  let wet_active := ((db.wet_bets.filter (fun w =>
      w.user_id = uid ∧ w.status = "ACTIVE")).map (fun w => w.amount)).sum
  let wet_won := ((db.wet_bets.filter (fun w =>
      w.user_id = uid ∧ w.status = "RESOLVED")).map
      (fun w => w.payout.getD 0)).sum
  let art_net := ((db.art_bets.filter (fun a => a.user_id = uid)).map
      (fun a => a.payout - a.amount)).sum
  500 - ppp_active_funded - wet_active + wet_won
    - sum_trade_spent db uid + sum_trade_earned db uid + art_net + bonus_now

/-- `remaining_points(user)`: stored `points` column plus bonus when
readable; derived ledger as fallback; optional reconciliation override
when the divergence exceeds the 0.5 tolerance. -/
def remaining_points (reconcile : Bool) (db : DB) (uid : ℕ) : ℚ :=
  if uid = 0 then 0
  else
    let points_now : Option ℚ := (findUser db uid).bind (fun u => u.points)
    let bonus_now : ℚ := ((findUser db uid).bind
        (fun u => u.bonus_points)).getD 0
    let ledger := max 0 (round6 (ledger_raw db uid bonus_now))
    match points_now with
    | some p =>
        let pwb := p + bonus_now
        if reconcile then (if 1/2 < |pwb - ledger| then ledger else pwb)
        else pwb
    | none => ledger

/-- On the default path (stored `points` readable, reconciliation off),
`remaining_points` is the stored balance plus the bonus column. -/
lemma remaining_points_stored_path (db : DB) (uid : ℕ) (p : ℚ)
    (h0 : uid ≠ 0) (hp : (findUser db uid).bind (fun u => u.points) = some p) :
    remaining_points false db uid
      = p + (((findUser db uid).bind (fun u => u.bonus_points)).getD 0) := by
  simp only [remaining_points, h0, if_false, hp, Bool.false_eq_true, reduceIte]


/-!
## Hourly (Wet) wager placement

Source: POST branch of `wet`, src/mood_speculator_v2.py lines 6790-6877.
Inputs arrive already parsed (the string-parsing failures of the source
map to the same rejection).  `nowParis` is the naive-local current
instant, `hour0` its floor to the hour; the cutoff is `hour0 + 2h`
(7200 s).  The existing-slot target check compares integer percentages
through `abs(existing - target) > 1e-6`, which for integers is plain
inequality.
-/

inductive WetErr
  | invalid_values
  | before_cutoff
  | insufficient_budget
  | target_conflict
  | past_slot
  deriving DecidableEq

/-- The POST handler of `wet`: validations in source order, then the
insertion of the new ACTIVE `WetBet`.  It never touches the `user`
table: no debit accompanies the placement. -/
def wet_post (uid : ℕ) (slot_dt : ℤ) (target_pct : ℤ) (amount : ℚ)
    (hour0 nowParis : ℤ) (nextWetId : ℕ) (reconcile : Bool) (db : DB) :
    Except WetErr DB :=
  if target_pct < 0 ∨ 100 < target_pct ∨ amount ≤ 0 then .error .invalid_values
  else if slot_dt < hour0 + 7200 then .error .before_cutoff
  else
    let rem := remaining_points reconcile db uid
    if rem + 1/1000000000 < amount then .error .insufficient_budget
    else if (db.wet_bets.find? (fun w =>
        w.user_id = uid ∧ w.slot_dt = slot_dt ∧ w.status = "ACTIVE")).any
        (fun w => ¬ (w.target_pct = target_pct)) then .error .target_conflict
    else if slot_dt ≤ nowParis then .error .past_slot
    else
      let hours_ahead : ℚ := max 0 (((slot_dt - nowParis : ℤ) : ℚ) / 3600)
      let odds : ℚ := max (6/5) (min 3 (6/5 + (1/50) * hours_ahead))
      .ok { db with wet_bets := db.wet_bets ++
        [{ id := nextWetId, user_id := uid, slot_dt := slot_dt,
           target_pct := target_pct, amount := round6 amount, odds := odds,
           status := "ACTIVE", observed_pct := none, outcome := none,
           payout := none, resolved_at := none, dismissed_at := none }] }

/-- C10: a successful hourly (Wet) wager placement mutates no column of
the `user` table, so on the default balance path (stored `points`
readable, reconciliation off) `remaining_points` returns the same value
immediately after the placement. -/
theorem wet_post_no_wallet_mutation
    (uid : ℕ) (slot_dt target_pct : ℤ) (amount : ℚ) (hour0 nowParis : ℤ)
    (nextWetId : ℕ) (reconcile : Bool) (db db' : DB)
    (hok : wet_post uid slot_dt target_pct amount hour0 nowParis nextWetId
        reconcile db = .ok db') :
    db'.users = db.users ∧
    ∀ uid2 : ℕ, uid2 ≠ 0 →
      ∀ p : ℚ, (findUser db uid2).bind (fun u => u.points) = some p →
        remaining_points false db' uid2 = remaining_points false db uid2 := by
  have husers : db'.users = db.users := by
    simp only [wet_post] at hok
    repeat' split at hok
    any_goals exact Except.noConfusion hok
    injection hok with h
    rw [← h]
  refine ⟨husers, ?_⟩
  intro uid2 h0 p hp
  have hfind : findUser db' uid2 = findUser db uid2 := by
    unfold findUser
    rw [husers]
  rw [remaining_points_stored_path db' uid2 p h0 (by rw [hfind]; exact hp),
      remaining_points_stored_path db uid2 p h0 hp, hfind]

/-- Concrete database for the C10 witness: one user with stored points
500, no wagers. -/
def wetDB : DB :=
  { users := [{ id := 1, points := some 500, bonus_points := some 0,
                bolts := 10 }],
    ppp_bets := [], wet_bets := [], boosts := [], listings := [],
    art_bets := [], humidity_obs := [], meteo_obs := [] }

/-- State after the concrete C10 placement. -/
def wetDBAfter : DB :=
  { wetDB with wet_bets :=
      [{ id := 7, user_id := 1, slot_dt := 20000, target_pct := 80,
         amount := 10, odds := 11297/9000, status := "ACTIVE",
         observed_pct := none, outcome := none, payout := none,
         resolved_at := none, dismissed_at := none }] }

lemma wet_post_concrete :
    wet_post 1 20000 80 10 10000 10060 7 false wetDB = .ok wetDBAfter := by
  norm_num [wet_post, wetDB, wetDBAfter, remaining_points, findUser,
    ledger_raw, sum_trade_spent, sum_trade_earned, sum_price_generic,
    round6, List.find?]

/-- Witness for C10 at a concrete placement. -/
theorem wet_post_no_wallet_mutation_witness :
    remaining_points false wetDBAfter 1 = remaining_points false wetDB 1 :=
  (wet_post_no_wallet_mutation 1 20000 80 10 10000 10060 7 false wetDB
      wetDBAfter wet_post_concrete).2 1 (by norm_num) 500
      (by norm_num [wetDB, findUser, List.find?])

/-!
## Trading Overlay: buying a listing

Source: `trade_buy_listing`, src/mood_speculator_v2.py lines 9194-9310.
The handler transfers ownership, clears the lock and funding flags and
seals the listing as SOLD with the sale price, but performs no UPDATE
on the `user` table: the point debit and credit are left to the derived
ledger of `remaining_points` reading `sale_price` on SOLD listings.
-/

inductive TradeErr
  | not_open
  | cannot_buy_own
  | bad_price
  | insufficient_budget
  | no_bet_to_transfer
  | bet_not_active
  | expired
  deriving DecidableEq

/-- `_parse_price`: the first candidate that is a positive number. -/
def parse_price : List (Option ℚ) → Option ℚ
  | [] => none
  | none :: rest => parse_price rest
  | some v :: rest => if 0 < v then some v else parse_price rest

/-- The buy handler, validations in source order, then the single
commit: reassign the wager, clear its flags, seal the listing. -/
def trade_buy_listing (me lid : ℕ) (today now : ℤ) (reconcile : Bool)
    (db : DB) : Except TradeErr DB :=
  match db.listings.find? (fun l => l.id = lid) with
  | none => .error .not_open
  | some row =>
    if ¬ (row.status = "OPEN") then .error .not_open
    else if row.user_id = me then .error .cannot_buy_own
    else
      match parse_price [row.ask_price, row.payload_ask_price] with
      | none => .error .bad_price
      | some price =>
        if remaining_points reconcile db me + 1/1000000000 < price then
          .error .insufficient_budget
        else
          match row.bet_id with
          | none => .error .no_bet_to_transfer
          | some bid =>
            match db.ppp_bets.find? (fun b => b.id = bid) with
            | none => .error .bet_not_active
            | some b =>
              if ¬ (b.status = "ACTIVE") then .error .bet_not_active
              else if b.bet_date < today then .error .expired
              else .ok { db with
                ppp_bets := db.ppp_bets.map (fun x =>
                  if x.id = bid then
                    { x with user_id := me, locked_for_trade := false,
                             funded_from_balance := false }
                  else x),
                listings := db.listings.map (fun l =>
                  if l.id = lid then
                    { l with status := "SOLD", buyer_id := some me,
                             sale_price := some price, sold_at := some now }
                  else l) }

/-- C3 (amended): a successful buy reassigns the wager to the buyer,
clears its lock and funding flags and seals the listing as SOLD with
the sale price, but mutates no `user` column; on the default balance
path (stored `points` readable, reconciliation off) `remaining_points`
is therefore unchanged for every user, including buyer and seller.  The
debit and credit are only realized through the derived-ledger path of
`remaining_points`, which reads `sale_price` on SOLD listings. -/
theorem trade_buy_listing_effects
    (me lid : ℕ) (today now : ℤ) (reconcile : Bool) (db db' : DB)
    (row : ListingRow) (price : ℚ) (bid : ℕ)
    (hrow : db.listings.find? (fun l => l.id = lid) = some row)
    (hprice : parse_price [row.ask_price, row.payload_ask_price] = some price)
    (hbid : row.bet_id = some bid)
    (hok : trade_buy_listing me lid today now reconcile db = .ok db') :
    db'.users = db.users ∧
    (∀ b ∈ db'.ppp_bets, b.id = bid →
      b.user_id = me ∧ b.locked_for_trade = false ∧
      b.funded_from_balance = false) ∧
    (∀ l ∈ db'.listings, l.id = lid →
      l.status = "SOLD" ∧ l.buyer_id = some me ∧
      l.sale_price = some price) ∧
    (∀ uid : ℕ, uid ≠ 0 →
      ∀ p : ℚ, (findUser db uid).bind (fun u => u.points) = some p →
        remaining_points false db' uid = remaining_points false db uid) := by
  simp only [trade_buy_listing, hrow, hprice, hbid] at hok
  repeat' split at hok
  any_goals exact Except.noConfusion hok
  injection hok with h
  subst h
  refine ⟨rfl, ?_, ?_, ?_⟩
  · intro b hb hbid2
    obtain ⟨a, ha, rfl⟩ := List.mem_map.mp hb
    by_cases hcase : a.id = bid
    · simp [hcase]
    · simp only [hcase, if_false] at hbid2 ⊢
  · intro l hl hlid
    obtain ⟨a, ha, rfl⟩ := List.mem_map.mp hl
    by_cases hcase : a.id = lid
    · simp [hcase]
    · simp only [hcase, if_false] at hlid ⊢
  · intro uid h0 p hp
    have hfind : ∀ u : ℕ, findUser { db with
        ppp_bets := db.ppp_bets.map (fun x =>
          if x.id = bid then
            { x with user_id := me, locked_for_trade := false,
                     funded_from_balance := false }
          else x),
        listings := db.listings.map (fun l =>
          if l.id = lid then
            { l with status := "SOLD", buyer_id := some me,
                     sale_price := some price, sold_at := some now }
          else l) } u = findUser db u := fun _ => rfl
    rw [remaining_points_stored_path _ uid p h0 (by rw [hfind]; exact hp),
        remaining_points_stored_path db uid p h0 hp, hfind]

/-- Concrete state for the C3 counterexample and witness: seller user 1
and buyer user 2 each hold stored points 500; user 1 owns ACTIVE wager
10 (stake 12) listed OPEN as listing 5 at ask price 15. -/
def tradeDB : DB :=
  { users := [{ id := 1, points := some 500, bonus_points := some 0,
                bolts := 10 },
              { id := 2, points := some 500, bonus_points := some 0,
                bolts := 10 }],
    ppp_bets := [{ id := 10, user_id := 1, bet_date := 100,
                   choice := "PLUIE", amount := 12, odds := 3/2,
                   status := "ACTIVE", station_id := "",
                   locked_for_trade := true, funded_from_balance := true,
                   target_time := "18:00", target_utc := some 360000,
                   verdict := none, outcome := none, preset_outcome := none,
                   observed_mm := none, observed_at := none,
                   resolved_at := none }],
    wet_bets := [],
    boosts := [],
    listings := [{ id := 5, user_id := 1, status := "OPEN",
                   bet_id := some 10, ask_price := some 15,
                   payload_ask_price := some 15, buyer_id := none,
                   sale_price := none, sold_at := none }],
    art_bets := [], humidity_obs := [], meteo_obs := [] }

/-- `tradeDB` after user 2 buys listing 5. -/
def tradeDBAfter : DB :=
  { tradeDB with
    ppp_bets := [{ id := 10, user_id := 2, bet_date := 100,
                   choice := "PLUIE", amount := 12, odds := 3/2,
                   status := "ACTIVE", station_id := "",
                   locked_for_trade := false, funded_from_balance := false,
                   target_time := "18:00", target_utc := some 360000,
                   verdict := none, outcome := none, preset_outcome := none,
                   observed_mm := none, observed_at := none,
                   resolved_at := none }],
    listings := [{ id := 5, user_id := 1, status := "SOLD",
                   bet_id := some 10, ask_price := some 15,
                   payload_ask_price := some 15, buyer_id := some 2,
                   sale_price := some 15, sold_at := some 777 }] }

lemma trade_buy_concrete :
    trade_buy_listing 2 5 50 777 false tradeDB = .ok tradeDBAfter := by
  norm_num [trade_buy_listing, tradeDB, tradeDBAfter, parse_price,
    remaining_points, findUser, ledger_raw, sum_trade_spent,
    sum_trade_earned, sum_price_generic, round6, List.find?]

/-- C3 counterexample: user 2 successfully buys listing 5 from user 1
at sale price 15, yet `remaining_points` changes for neither seller nor
buyer (both 500 before and after): the stored balances do not move by
the sale price at buy time. -/
theorem trade_buy_balance_counterexample :
    trade_buy_listing 2 5 50 777 false tradeDB = .ok tradeDBAfter ∧
    remaining_points false tradeDB 1 = 500 ∧
    remaining_points false tradeDBAfter 1 = 500 ∧
    remaining_points false tradeDB 2 = 500 ∧
    remaining_points false tradeDBAfter 2 = 500 ∧
    ¬ (remaining_points false tradeDBAfter 1
        - remaining_points false tradeDB 1 = 15) := by
  refine ⟨trade_buy_concrete, ?_, ?_, ?_, ?_, ?_⟩ <;>
    norm_num [remaining_points, tradeDB, tradeDBAfter, findUser,
      List.find?]

/-- Witness for the amended C3 theorem at the concrete trade. -/
theorem trade_buy_listing_effects_witness :
    remaining_points false tradeDBAfter 2 = remaining_points false tradeDB 2 :=
  (trade_buy_listing_effects 2 5 50 777 false tradeDB tradeDBAfter
      { id := 5, user_id := 1, status := "OPEN", bet_id := some 10,
        ask_price := some 15, payload_ask_price := some 15,
        buyer_id := none, sale_price := none, sold_at := none }
      15 10 (by norm_num [tradeDB, List.find?])
      (by norm_num [parse_price]) rfl trade_buy_concrete).2.2.2
    2 (by norm_num) 500 (by norm_num [tradeDB, findUser, List.find?])

/-!
## Boost Overlay

Source: `ppp_boost`, src/mood_speculator_v2.py lines 7080-7198, with the
cap configuration `MAX_BOOSTS_PER_TARGET = 5`, `BOOST_UNIT = 5.0`
(`cap_value = 25.0`).  The startup migration creates the unique index
`uq_pppboost_user_date_station` on (user_id, bet_date, station_id); the
upsert uses exactly that triple as its ON CONFLICT target.  A failing
bolt-decrement guard rolls the transaction back, which the model
renders by returning the unchanged state on every error.
-/

inductive BoostErr
  | bad_value
  | cap_reached
  | no_bolts
  deriving DecidableEq

/-- The key predicate of every boost query and of the upsert conflict
target: same user, same bet date, same (coalesced) station scope. -/
def boostMatches (uid : ℕ) (d : ℤ) (sid : String) (r : BoostRow) : Prop :=
  r.user_id = uid ∧ r.bet_date = d ∧ r.station_id = sid

instance (uid : ℕ) (d : ℤ) (sid : String) (r : BoostRow) :
    Decidable (boostMatches uid d sid r) := by
  unfold boostMatches
  infer_instance

/-- `SELECT COALESCE(SUM(COALESCE(value,0)),0) FROM ppp_boosts WHERE
user_id = :uid AND bet_date = :d AND COALESCE(station_id,'') = :sid`
over a row list. -/
def boost_total_list (uid : ℕ) (d : ℤ) (sid : String)
    (l : List BoostRow) : ℚ :=
  ((l.filter (fun r => boostMatches uid d sid r)).map (fun r => r.value)).sum

/-- The aggregate total for one (user, date, scope) key. -/
def boost_key_total (db : DB) (uid : ℕ) (d : ℤ) (sid : String) : ℚ :=
  boost_total_list uid d sid db.boosts

/-- The `INSERT ... ON CONFLICT(user_id, bet_date, station_id) DO
UPDATE SET value = MIN(COALESCE(value,0) + :inc, :cap)` upsert: update
the (unique) conflicting row, or append a fresh row valued
`MIN(:inc, :cap)`. -/
def boost_upsert (uid : ℕ) (d : ℤ) (sid : String) (inc cap : ℚ) :
    List BoostRow → List BoostRow
  | [] => [{ user_id := uid, bet_date := d, station_id := sid,
             value := min inc cap }]
  | r :: rest =>
    if boostMatches uid d sid r then
      { r with value := min (r.value + inc) cap } :: rest
    else r :: boost_upsert uid d sid inc cap rest

/-- Total bolts held by a user id (a real database has exactly one row
per id; the sum form avoids assuming that). -/
def bolts_sum (db : DB) (uid : ℕ) : ℤ :=
  ((db.users.filter (fun u => u.id = uid)).map (fun u => u.bolts)).sum

/-- `ppp_boost` endpoint: read the aggregate, reject at the cap, clamp
the increment, decrement one bolt under the `bolts > 0` guard, then
upsert the aggregate; errors roll everything back. -/
def ppp_boost (uid : ℕ) (d : ℤ) (sid_norm : String) (inc_req : ℚ)
    (db : DB) : Except BoostErr (DB × ℚ × ℤ) :=
  if inc_req ≤ 0 then .error .bad_value
  else
    let cap_value : ℚ := 25
    let cur_total := boost_key_total db uid d sid_norm
    let remaining := cap_value - cur_total
    if remaining ≤ 1/1000000000000 then .error .cap_reached
    else
      let inc := min inc_req remaining
      if inc ≤ 1/1000000000000 then .error .cap_reached
      else if ((db.users.filter
          (fun u => u.id = uid ∧ 0 < u.bolts)).length ≠ 1) then
        .error .no_bolts
      else
        let db2 : DB := { db with
          users := db.users.map (fun u =>
            if u.id = uid ∧ 0 < u.bolts then { u with bolts := u.bolts - 1 }
            else u),
          boosts := boost_upsert uid d sid_norm inc cap_value db.boosts }
        .ok (db2, boost_key_total db2 uid d sid_norm,
             ((findUser db2 uid).map (fun u => u.bolts)).getD 0)

/-- One call of `ppp_boost` as a plain state transformer (errors leave
the state unchanged, as the rollback does). -/
def ppp_boost_run (uid : ℕ) (d : ℤ) (sid : String) (db : DB)
    (inc_req : ℚ) : DB :=
  match ppp_boost uid d sid inc_req db with
  | .ok (db2, _, _) => db2
  | .error _ => db

lemma boost_total_cons_match (uid : ℕ) (d : ℤ) (sid : String)
    (r : BoostRow) (rest : List BoostRow)
    (hr : boostMatches uid d sid r) :
    boost_total_list uid d sid (r :: rest)
      = r.value + boost_total_list uid d sid rest := by
  simp [boost_total_list, List.filter_cons, hr]

lemma boost_total_cons_nomatch (uid : ℕ) (d : ℤ) (sid : String)
    (r : BoostRow) (rest : List BoostRow)
    (hr : ¬ boostMatches uid d sid r) :
    boost_total_list uid d sid (r :: rest)
      = boost_total_list uid d sid rest := by
  simp [boost_total_list, List.filter_cons, hr]

lemma boost_total_nil (uid : ℕ) (d : ℤ) (sid : String) :
    boost_total_list uid d sid [] = 0 := rfl

lemma boost_upsert_total_le (uid : ℕ) (d : ℤ) (sid : String)
    (inc cap : ℚ) (l : List BoostRow)
    (hinc : inc ≤ cap - boost_total_list uid d sid l) :
    boost_total_list uid d sid (boost_upsert uid d sid inc cap l) ≤ cap := by
  induction l with
  | nil =>
    simp only [boost_upsert]
    rw [boost_total_cons_match uid d sid _ _ ⟨rfl, rfl, rfl⟩,
        boost_total_nil]
    simp only [add_zero]
    exact min_le_right inc cap
  | cons r rest ih =>
    by_cases hr : boostMatches uid d sid r
    · simp only [boost_upsert]
      rw [if_pos hr,
        boost_total_cons_match uid d sid _ rest
          (show boostMatches uid d sid
            { r with value := min (r.value + inc) cap } from hr)]
      rw [boost_total_cons_match uid d sid r rest hr] at hinc
      have hm : min (r.value + inc) cap ≤ r.value + inc := min_le_left _ _
      have hval : ({ r with value := min (r.value + inc) cap} : BoostRow).value = min (r.value + inc) cap := rfl
      rw [hval]
      linarith
    · simp only [boost_upsert]
      rw [if_neg hr, boost_total_cons_nomatch uid d sid r _ hr]
      rw [boost_total_cons_nomatch uid d sid r rest hr] at hinc
      exact ih hinc

lemma boost_upsert_total_eq (uid : ℕ) (d : ℤ) (sid : String)
    (inc cap : ℚ) (l : List BoostRow)
    (hq : (l.filter (fun r => boostMatches uid d sid r)).length ≤ 1)
    (hv : boost_total_list uid d sid l + inc ≤ cap) (hc : inc ≤ cap) :
    boost_total_list uid d sid (boost_upsert uid d sid inc cap l)
      = boost_total_list uid d sid l + inc := by
  induction l with
  | nil =>
    simp only [boost_upsert]
    rw [boost_total_cons_match uid d sid _ _ ⟨rfl, rfl, rfl⟩,
        boost_total_nil]
    have hval : ({ user_id := uid, bet_date := d, station_id := sid, value := min inc cap } : BoostRow).value = min inc cap := rfl
    rw [hval, min_eq_left hc]
    ring
  | cons r rest ih =>
    by_cases hr : boostMatches uid d sid r
    · have hfil : (r :: rest).filter (fun x => boostMatches uid d sid x)
          = r :: rest.filter (fun x => boostMatches uid d sid x) := by
        simp [List.filter_cons, hr]
      have hrest : rest.filter (fun x => boostMatches uid d sid x) = [] := by
        rw [hfil] at hq
        simp only [List.length_cons] at hq
        exact List.length_eq_zero.mp (by omega)
      have hrtot : boost_total_list uid d sid rest = 0 := by
        simp [boost_total_list, hrest]
      simp only [boost_upsert]
      rw [if_pos hr,
        boost_total_cons_match uid d sid _ rest
          (show boostMatches uid d sid
            { r with value := min (r.value + inc) cap } from hr),
        boost_total_cons_match uid d sid r rest hr, hrtot]
      rw [boost_total_cons_match uid d sid r rest hr, hrtot] at hv
      have hval : ({ r with value := min (r.value + inc) cap} : BoostRow).value = min (r.value + inc) cap := rfl
      rw [hval, min_eq_left (by linarith)]
      ring
    · have hq2 : (rest.filter (fun x => boostMatches uid d sid x)).length ≤ 1 := by
        have hfil : (r :: rest).filter (fun x => boostMatches uid d sid x)
            = rest.filter (fun x => boostMatches uid d sid x) := by
          simp [List.filter_cons, hr]
        rw [hfil] at hq
        exact hq
      simp only [boost_upsert]
      rw [if_neg hr, boost_total_cons_nomatch uid d sid r _ hr,
        boost_total_cons_nomatch uid d sid r rest hr]
      rw [boost_total_cons_nomatch uid d sid r rest hr] at hv
      exact ih hq2 hv

lemma bolts_dec_sum (l : List UserRow) (uid : ℕ) :
    (((l.map (fun u => if u.id = uid ∧ 0 < u.bolts
          then { u with bolts := u.bolts - 1 } else u)).filter
        (fun u => u.id = uid)).map (fun u => u.bolts)).sum
      = ((l.filter (fun u => u.id = uid)).map (fun u => u.bolts)).sum
        - ((l.filter (fun u => u.id = uid ∧ 0 < u.bolts)).length : ℤ) := by
  induction l with
  | nil => simp
  | cons u rest ih =>
    simp only [Bool.decide_and] at ih ⊢
    by_cases h2 : u.id = uid ∧ 0 < u.bolts
    · have hid2 : ({ u with bolts := u.bolts - 1 } : UserRow).id = uid := h2.1
      have hb2 : ({ u with bolts := u.bolts - 1 } : UserRow).bolts
          = u.bolts - 1 := rfl
      simp [List.filter_cons, if_pos h2, hid2, hb2, h2.1, h2.2]
      rw [ih]
      ring
    · by_cases h1 : u.id = uid
      · have hb : ¬ 0 < u.bolts := fun hb => h2 ⟨h1, hb⟩
        simp [List.filter_cons, h1, hb]
        rw [ih]
        ring
      · have hu : (if u.id = uid ∧ 0 < u.bolts
            then ({ u with bolts := u.bolts - 1 } : UserRow) else u) = u :=
          if_neg h2
        simp [List.filter_cons, hu, h1, h2]
        exact ih

/-- Full characterization of a successful `ppp_boost` call: the guards
that were passed and the exact resulting state. -/
lemma ppp_boost_ok_elim {uid : ℕ} {d : ℤ} {sid : String} {inc_req : ℚ}
    {db db2 : DB} {t : ℚ} {bl : ℤ}
    (h : ppp_boost uid d sid inc_req db = .ok (db2, t, bl)) :
    ¬ inc_req ≤ 0 ∧
    ¬ (25 - boost_key_total db uid d sid ≤ 1/1000000000000) ∧
    (db.users.filter (fun u => u.id = uid ∧ 0 < u.bolts)).length = 1 ∧
    db2 = { db with
      users := db.users.map (fun u =>
        if u.id = uid ∧ 0 < u.bolts then { u with bolts := u.bolts - 1 }
        else u),
      boosts := boost_upsert uid d sid
        (min inc_req (25 - boost_key_total db uid d sid)) 25 db.boosts } := by
  simp only [ppp_boost] at h
  repeat' split at h
  any_goals exact Except.noConfusion h
  injection h with h2
  injection h2 with hdb hrest
  refine ⟨by assumption, by assumption, by omega, hdb.symm⟩

lemma ppp_boost_ok_cap_le {uid : ℕ} {d : ℤ} {sid : String} {inc_req : ℚ}
    {db db2 : DB} {t : ℚ} {bl : ℤ}
    (h : ppp_boost uid d sid inc_req db = .ok (db2, t, bl)) :
    boost_key_total db2 uid d sid ≤ 25 := by
  obtain ⟨h1, h2, h3, rfl⟩ := ppp_boost_ok_elim h
  exact boost_upsert_total_le uid d sid _ 25 db.boosts (min_le_right _ _)

lemma ppp_boost_run_cap_le (uid : ℕ) (d : ℤ) (sid : String) (db : DB)
    (inc_req : ℚ) (hcap : boost_key_total db uid d sid ≤ 25) :
    boost_key_total (ppp_boost_run uid d sid db inc_req) uid d sid ≤ 25 := by
  unfold ppp_boost_run
  cases h : ppp_boost uid d sid inc_req db with
  | error e => exact hcap
  | ok p =>
    obtain ⟨db2, t, bl⟩ := p
    exact ppp_boost_ok_cap_le h

/-- C4: (a) a successful boost purchase leaves the aggregate at or
below the 25.0 cap; (b) any sequence of purchases keeps it there; (c) a
successful purchase clamps its contribution to the remaining headroom
and consumes exactly one bolt; (d) with zero headroom the purchase is
rejected with cap_reached, and rejections leave the whole state (bolts
included) untouched. -/
theorem ppp_boost_cap_invariant :
    (∀ (uid : ℕ) (d : ℤ) (sid : String) (inc_req : ℚ) (db db2 : DB)
        (t : ℚ) (bl : ℤ),
      ppp_boost uid d sid inc_req db = .ok (db2, t, bl) →
      boost_key_total db2 uid d sid ≤ 25) ∧
    (∀ (uid : ℕ) (d : ℤ) (sid : String) (db : DB) (reqs : List ℚ),
      boost_key_total db uid d sid ≤ 25 →
      boost_key_total (reqs.foldl (ppp_boost_run uid d sid) db) uid d sid
        ≤ 25) ∧
    (∀ (uid : ℕ) (d : ℤ) (sid : String) (inc_req : ℚ) (db db2 : DB)
        (t : ℚ) (bl : ℤ),
      ppp_boost uid d sid inc_req db = .ok (db2, t, bl) →
      (db.boosts.filter (fun r => boostMatches uid d sid r)).length ≤ 1 →
      0 ≤ boost_key_total db uid d sid →
      boost_key_total db2 uid d sid
          = boost_key_total db uid d sid
            + min inc_req (25 - boost_key_total db uid d sid) ∧
        bolts_sum db2 uid = bolts_sum db uid - 1) ∧
    (∀ (uid : ℕ) (d : ℤ) (sid : String) (inc_req : ℚ) (db : DB),
      0 < inc_req → boost_key_total db uid d sid = 25 →
      ppp_boost uid d sid inc_req db = .error .cap_reached) := by
  refine ⟨?_, ?_, ?_, ?_⟩
  · intro uid d sid inc_req db db2 t bl h
    exact ppp_boost_ok_cap_le h
  · intro uid d sid db reqs hcap
    induction reqs generalizing db with
    | nil => exact hcap
    | cons r rest ih =>
      exact ih _ (ppp_boost_run_cap_le uid d sid db r hcap)
  · intro uid d sid inc_req db db2 t bl h hq h0
    obtain ⟨h1, h2, h3, rfl⟩ := ppp_boost_ok_elim h
    constructor
    · refine boost_upsert_total_eq uid d sid _ 25 db.boosts hq ?_ ?_
      · have := min_le_right inc_req (25 - boost_key_total db uid d sid)
        have hbt : boost_total_list uid d sid db.boosts
            = boost_key_total db uid d sid := rfl
        rw [hbt]
        linarith
      · have := min_le_right inc_req (25 - boost_key_total db uid d sid)
        linarith
    · show (((db.users.map (fun u =>
          if u.id = uid ∧ 0 < u.bolts then { u with bolts := u.bolts - 1 }
          else u)).filter (fun u => u.id = uid)).map
            (fun u => u.bolts)).sum = bolts_sum db uid - 1
      rw [bolts_dec_sum, h3]
      rfl
  · intro uid d sid inc_req db hpos hfull
    simp only [ppp_boost]
    rw [if_neg (not_le.mpr hpos), hfull]
    norm_num

/-- Concrete state for the C4 witness: user 1 holds 3 bolts; the key
(1, day 40, default scope) already accumulated 20.0 of boost. -/
def boostDB : DB :=
  { users := [{ id := 1, points := some 500, bonus_points := some 0,
                bolts := 3 }],
    ppp_bets := [], wet_bets := [],
    boosts := [{ user_id := 1, bet_date := 40, station_id := "",
                 value := 20 }],
    listings := [], art_bets := [], humidity_obs := [], meteo_obs := [] }

/-- `boostDB` after one more boost purchase of 5.0: aggregate at the
25.0 cap, one bolt consumed. -/
def boostDBAfter : DB :=
  { boostDB with
    users := [{ id := 1, points := some 500, bonus_points := some 0,
                bolts := 2 }],
    boosts := [{ user_id := 1, bet_date := 40, station_id := "",
                 value := 25 }] }

/-- `boostDB` with the aggregate already at the cap. -/
def boostDBFull : DB :=
  { boostDB with
    boosts := [{ user_id := 1, bet_date := 40, station_id := "",
                 value := 25 }] }

lemma ppp_boost_concrete :
    ppp_boost 1 40 "" 5 boostDB = .ok (boostDBAfter, 25, 2) := by
  norm_num [ppp_boost, boostDB, boostDBAfter, boost_key_total,
    boost_total_list, boostMatches, boost_upsert, findUser, List.find?,
    List.filter_cons]

/-- Witness for C4: the purchase at 20.0 accumulated reaches exactly
the cap and consumes one bolt; the next attempt is rejected with
cap_reached. -/
theorem ppp_boost_cap_invariant_witness :
    (boost_key_total boostDBAfter 1 40 ""
        = boost_key_total boostDB 1 40 ""
          + min 5 (25 - boost_key_total boostDB 1 40 "") ∧
      bolts_sum boostDBAfter 1 = bolts_sum boostDB 1 - 1) ∧
    ppp_boost 1 40 "" 5 boostDBFull = .error .cap_reached :=
  ⟨ppp_boost_cap_invariant.2.2.1 1 40 "" 5 boostDB boostDBAfter 25 2
      ppp_boost_concrete
      (by norm_num [boostDB, boostMatches, List.filter_cons])
      (by norm_num [boostDB, boost_key_total, boost_total_list,
        boostMatches, List.filter_cons]),
   ppp_boost_cap_invariant.2.2.2 1 40 "" 5 boostDBFull (by norm_num)
      (by norm_num [boostDBFull, boostDB, boost_key_total,
        boost_total_list, boostMatches, List.filter_cons])⟩

/-!
## C9: structural uniqueness of boost-aggregate rows

The startup migration runs `CREATE UNIQUE INDEX IF NOT EXISTS
uq_pppboost_user_date_station ON ppp_boosts(user_id, bet_date,
station_id)`, and the `ppp_boost` upsert names exactly this triple as
its `ON CONFLICT` target, so repeated purchases for one key land in one
row.  `boostKey` is that index key.
-/

/-- The column triple of the unique index
`uq_pppboost_user_date_station`. -/
def boostKey (r : BoostRow) : ℕ × ℤ × String :=
  (r.user_id, r.bet_date, r.station_id)

lemma boostMatches_iff_key (uid : ℕ) (d : ℤ) (sid : String) (r : BoostRow) :
    boostMatches uid d sid r ↔ boostKey r = (uid, d, sid) := by
  simp [boostMatches, boostKey, Prod.ext_iff]

lemma boost_upsert_keys_of_match (uid : ℕ) (d : ℤ) (sid : String)
    (inc cap : ℚ) (l : List BoostRow)
    (hmem : ∃ r ∈ l, boostMatches uid d sid r) :
    (boost_upsert uid d sid inc cap l).map boostKey = l.map boostKey := by
  induction l with
  | nil => obtain ⟨r, hr, _⟩ := hmem; exact absurd hr (List.not_mem_nil r)
  | cons r rest ih =>
    by_cases hr : boostMatches uid d sid r
    · simp only [boost_upsert, if_pos hr, List.map_cons]
      rfl
    · simp only [boost_upsert, if_neg hr, List.map_cons]
      obtain ⟨x, hx, hxm⟩ := hmem
      rcases List.mem_cons.mp hx with rfl | hx2
      · exact absurd hxm hr
      · rw [ih ⟨x, hx2, hxm⟩]

lemma boost_upsert_keys_of_nomatch (uid : ℕ) (d : ℤ) (sid : String)
    (inc cap : ℚ) (l : List BoostRow)
    (hnone : ∀ r ∈ l, ¬ boostMatches uid d sid r) :
    (boost_upsert uid d sid inc cap l).map boostKey
      = l.map boostKey ++ [(uid, d, sid)] := by
  induction l with
  | nil => rfl
  | cons r rest ih =>
    have hr : ¬ boostMatches uid d sid r := hnone r (List.mem_cons_self r rest)
    simp only [boost_upsert, if_neg hr, List.map_cons]
    rw [ih (fun x hx => hnone x (List.mem_cons_of_mem r hx))]
    rfl

lemma boost_upsert_length_of_match (uid : ℕ) (d : ℤ) (sid : String)
    (inc cap : ℚ) (l : List BoostRow)
    (hmem : ∃ r ∈ l, boostMatches uid d sid r) :
    (boost_upsert uid d sid inc cap l).length = l.length := by
  have := boost_upsert_keys_of_match uid d sid inc cap l hmem
  have h1 := congrArg List.length this
  simpa using h1

/-- C9: the boost upsert is keyed on exactly the unique-index triple
(user_id, bet_date, station_id): a successful purchase preserves
one-row-per-key (no duplicate keys appear), and when a row for the key
already exists the purchase merges into it rather than adding a row
(row count unchanged). -/
theorem ppp_boost_upsert_unique_key :
    ∀ (uid : ℕ) (d : ℤ) (sid : String) (inc_req : ℚ) (db db2 : DB)
      (t : ℚ) (bl : ℤ),
      ppp_boost uid d sid inc_req db = .ok (db2, t, bl) →
      ((db.boosts.map boostKey).Nodup → (db2.boosts.map boostKey).Nodup) ∧
      ((∃ r ∈ db.boosts, boostKey r = (uid, d, sid)) →
        db2.boosts.length = db.boosts.length) := by
  intro uid d sid inc_req db db2 t bl h
  obtain ⟨h1, h2, h3, rfl⟩ := ppp_boost_ok_elim h
  constructor
  · intro hnd
    by_cases hmem : ∃ r ∈ db.boosts, boostMatches uid d sid r
    · show ((boost_upsert uid d sid _ 25 db.boosts).map boostKey).Nodup
      rw [boost_upsert_keys_of_match uid d sid _ 25 db.boosts hmem]
      exact hnd
    · push_neg at hmem
      show ((boost_upsert uid d sid _ 25 db.boosts).map boostKey).Nodup
      rw [boost_upsert_keys_of_nomatch uid d sid _ 25 db.boosts hmem]
      have hnotin : (uid, d, sid) ∉ db.boosts.map boostKey := by
        intro hin
        obtain ⟨r, hr, hkey⟩ := List.mem_map.mp hin
        exact hmem r hr ((boostMatches_iff_key uid d sid r).mpr hkey)
      simp [List.nodup_append, hnd, hnotin]
  · intro hmem
    obtain ⟨r, hr, hkey⟩ := hmem
    exact boost_upsert_length_of_match uid d sid _ 25 db.boosts
      ⟨r, hr, (boostMatches_iff_key uid d sid r).mpr hkey⟩

/-- Witness for C9 at the concrete boost purchase: key uniqueness is
preserved and the existing row is merged, not duplicated. -/
theorem ppp_boost_upsert_unique_key_witness :
    (boostDBAfter.boosts.map boostKey).Nodup ∧
    boostDBAfter.boosts.length = boostDB.boosts.length :=
  ⟨(ppp_boost_upsert_unique_key 1 40 "" 5 boostDB boostDBAfter 25 2
      ppp_boost_concrete).1 (by simp [boostDB, boostKey]),
   (ppp_boost_upsert_unique_key 1 40 "" 5 boostDB boostDBAfter 25 2
      ppp_boost_concrete).2
      ⟨{ user_id := 1, bet_date := 40, station_id := "", value := 20 },
       by simp [boostDB], rfl⟩⟩

/-!
## Odds Engine: `ppp_combined_odds`

Source: `ppp_validate_can_bet` (lines 962-989), `_odds_from_prob`
(lines 1524-1531) with `PPP_ODDS_MIN, PPP_ODDS_MAX = 1.0, 3.0`, and
`ppp_combined_odds` (lines 1568-1675).  The two external signals, the
20-year historical rain probability (`_hist_prob_pluie_for_mmdd`) and
the short-range forecast signal (`ppp_forecast_signal_for_day`), reach
the function as already-fetched optional inputs `hist?` and `signal?`;
both helpers return `None` on any failure, which the source treats as
signal-unavailable.  The source French error strings are condensed to
an error enum.
-/

inductive PPPValidateErr
  | past_day
  | today_forbidden
  | too_far
  | no_rate
  deriving DecidableEq

/-- `ppp_validate_can_bet(target, today)`: betting allowed from day +1
to day +31, with the base odds from the fixed table. -/
def ppp_validate_can_bet (target today : ℤ) :
    Except PPPValidateErr (ℤ × ℚ) :=
  if target < today then .error .past_day
  else
    let offset := target - today
    if offset < 1 then .error .today_forbidden
    else if 31 < offset then .error .too_far
    else
      match ppp_odds_for_offset offset with
      | none => .error .no_rate
      | some odds => .ok (offset, odds)

/-- `_odds_from_prob(p)`: clamped fair odds (1/p and 1/(1-p)) for the
two sides, each rounded to 2 decimals. -/
def odds_from_prob (p : ℚ) : ℚ × ℚ :=
  let eps : ℚ := 1/1000000
  let pluie := max 1 (min 3 (1 / max p eps))
  let dry := max 1 (min 3 (1 / max (1 - p) eps))
  (round2 pluie, round2 dry)

/-- The result dict of `ppp_combined_odds` (diagnostic keys omitted). -/
structure CombinedOdds where
  offset : ℤ
  historical_available : Bool
  base_odds : ℚ
  combined_pluie : ℚ
  combined_pas_pluie : ℚ
  deriving DecidableEq

/-- `ppp_combined_odds(station_id, target_date)` with the external
historical probability and forecast signal as explicit inputs.  The
source computes `(k_hist, k_pred) = (1, 1)` in every branch and only
varies the forecast weight and denominator with the offset. -/
def ppp_combined_odds (today target : ℤ) (hist? : Option ℚ)
    (signal? : Option String) : Except PPPValidateErr CombinedOdds :=
  match ppp_validate_can_bet target today with
  | .error e => .error e
  | .ok (offset, base_odds) =>
    match hist? with
    | none =>
      let b := round2 base_odds
      .ok { offset := offset, historical_available := false,
            base_odds := b, combined_pluie := b, combined_pas_pluie := b }
    | some p =>
      let odd_hist_pluie := (odds_from_prob p).1
      let odd_hist_dry := (odds_from_prob p).2
      let predef := base_odds
      let comb_pluie_std := round2 ((odd_hist_pluie + predef) / 2)
      let comb_dry_std := round2 ((odd_hist_dry + predef) / 2)
      if ¬ (offset = 1 ∨ offset = 2 ∨ offset = 3) then
        .ok { offset := offset, historical_available := true,
              base_odds := round2 predef,
              combined_pluie := comb_pluie_std,
              combined_pas_pluie := comb_dry_std }
      else
        match signal? with
        | none =>
          .ok { offset := offset, historical_available := true,
                base_odds := round2 predef,
                combined_pluie := comb_pluie_std,
                combined_pas_pluie := comb_dry_std }
        | some signal =>
          let forecast_pluie : ℚ := if signal = "PLUIE" then 1 else 2
          let forecast_pas : ℚ := if signal = "PLUIE" then 2 else 1
          let k_fore : ℚ := if offset = 1 then 3 else if offset = 2 then 2 else 1
          let denom : ℚ := if offset = 1 then 5 else if offset = 2 then 4 else 3
          let comb_pluie := round2
            ((1 * odd_hist_pluie + 1 * predef + k_fore * forecast_pluie) / denom)
          let comb_dry := round2
            ((1 * odd_hist_dry + 1 * predef + k_fore * forecast_pas) / denom)
          .ok { offset := offset, historical_available := true,
                base_odds := round2 predef,
                combined_pluie := comb_pluie,
                combined_pas_pluie := comb_dry }

/-- Modelled from the claim wording: the weighted average of the
historical, fixed-table and forecast odds with weights kh : kt : kf,
rounded to 2 decimal places. -/
def specWeightedOdds (kh kt kf hist tab fore : ℚ) : ℚ :=
  round2 ((kh * hist + kt * tab + kf * fore) / (kh + kt + kf))

/-- Modelled from the claim wording: the simple average of the
historical and fixed-table odds, rounded to 2 decimal places. -/
def specSimpleAvg (hist tab : ℚ) : ℚ :=
  round2 ((hist + tab) / 2)

/-- C7: with historical and forecast signals available, the combined
odds at offsets 1, 2, 3 are the 1:1:3 / 1:1:2 / 1:1:1 weighted
averages of (historical, fixed-table, forecast) odds rounded to two
decimals; at offsets outside 1..3, or when the forecast signal is
unavailable, they are the simple average of the historical and
fixed-table odds. -/
theorem ppp_combined_odds_weighted_blend
    (today target : ℤ) (p : ℚ) (sig : String) (off : ℤ) (b : ℚ)
    (hv : ppp_validate_can_bet target today = .ok (off, b)) :
    (∀ koff denom : ℚ,
      ((off = 1 ∧ koff = 3 ∧ denom = 5) ∨ (off = 2 ∧ koff = 2 ∧ denom = 4)
        ∨ (off = 3 ∧ koff = 1 ∧ denom = 3)) →
      ppp_combined_odds today target (some p) (some sig)
        = .ok { offset := off, historical_available := true,
                base_odds := round2 b,
                combined_pluie := specWeightedOdds 1 1 koff
                  (odds_from_prob p).1 b (if sig = "PLUIE" then 1 else 2),
                combined_pas_pluie := specWeightedOdds 1 1 koff
                  (odds_from_prob p).2 b (if sig = "PLUIE" then 2 else 1) }) ∧
    (¬ (off = 1 ∨ off = 2 ∨ off = 3) →
      ppp_combined_odds today target (some p) (some sig)
        = .ok { offset := off, historical_available := true,
                base_odds := round2 b,
                combined_pluie := specSimpleAvg (odds_from_prob p).1 b,
                combined_pas_pluie := specSimpleAvg (odds_from_prob p).2 b }) ∧
    (ppp_combined_odds today target (some p) none
        = .ok { offset := off, historical_available := true,
                base_odds := round2 b,
                combined_pluie := specSimpleAvg (odds_from_prob p).1 b,
                combined_pas_pluie := specSimpleAvg (odds_from_prob p).2 b }) := by
  refine ⟨?_, ?_, ?_⟩
  · intro koff denom hk
    rcases hk with ⟨h1, hko, hde⟩ | ⟨h1, hko, hde⟩ | ⟨h1, hko, hde⟩ <;>
      subst h1 <;> subst hko <;> subst hde <;>
      simp only [ppp_combined_odds, hv] <;>
      norm_num [specWeightedOdds]
  · intro hoff
    simp only [ppp_combined_odds, hv, if_pos hoff]
    norm_num [specSimpleAvg]
  · simp only [ppp_combined_odds, hv]
    by_cases hoff : ¬ (off = 1 ∨ off = 2 ∨ off = 3)
    · simp only [if_pos hoff]
      norm_num [specSimpleAvg]
    · simp only [if_neg hoff]
      norm_num [specSimpleAvg]

/-- Witness for C7 at today 0, target day 2 (offset 2, table odds 1.0),
historical probability 1/4, forecast signal PLUIE. -/
theorem ppp_combined_odds_weighted_blend_witness :
    ppp_combined_odds 0 2 (some (1/4)) (some "PLUIE")
      = .ok { offset := 2, historical_available := true,
              base_odds := round2 1,
              combined_pluie := specWeightedOdds 1 1 2
                (odds_from_prob (1/4)).1 1 1,
              combined_pas_pluie := specWeightedOdds 1 1 2
                (odds_from_prob (1/4)).2 1 2 } := by
  have h := (ppp_combined_odds_weighted_blend 0 2 (1/4) "PLUIE" 2 1
      (by norm_num [ppp_validate_can_bet, ppp_odds_for_offset, PPP_ODDS,
        List.find?])).1 2 4 (by norm_num)
  simpa using h

/-!
## Directional wager placement: `ppp_bet`

Source: `ppp_bet`, src/mood_speculator_v2.py lines 7352-7534.  Inputs
arrive parsed: the date string is a day number, the HH:MM field is the
already-clamped 5-character `clamp_hhmm` output.  `upperStr` and
`trimStr` model Python `.upper()` / `.strip()` (and SQL TRIM) at the
character-list level so they compute inside proofs.
-/

/-- Python `str.upper()` over the character list. -/
def upperStr (s : String) : String := String.mk (s.data.map Char.toUpper)

/-- Python `str.strip()` / SQL TRIM over the character list. -/
def trimStr (s : String) : String :=
  String.mk
    (((s.data.dropWhile Char.isWhitespace).reverse.dropWhile
      Char.isWhitespace).reverse)

/-- `getattr(b, "target_time", None) or "18:00"`: the bet time slot
with the falsy-empty default. -/
def bet_hhmm (b : PPPBetRow) : String :=
  if b.target_time = "" then "18:00" else b.target_time

/-- The existing-stakes query: ACTIVE wagers of this user for this
date and scope (`func.coalesce(station_id,'') = scope`). -/
def ppp_existing_bets (db : DB) (uid : ℕ) (target : ℤ) (scope : String) :
    List PPPBetRow :=
  db.ppp_bets.filter (fun b => b.user_id = uid ∧ b.bet_date = target ∧
    b.station_id = scope ∧ b.status = "ACTIVE")

/-- The opposite choice. -/
def ppp_opposite (choice : String) : String :=
  if choice = "PLUIE" then "PAS_PLUIE" else "PLUIE"

/-- The distinct time slots already carrying a wager (`set(...)` over
the first 5 characters of each target_time). -/
def ppp_hours_set (db : DB) (uid : ℕ) (target : ℤ) (scope : String) :
    List String :=
  ((ppp_existing_bets db uid target scope).map
    (fun b => (bet_hhmm b).take 5)).dedup

/-- `float(comb.get(...) or comb.get("base_odds") or 0.0)` then
`if final_odds > 0` with fallback 1.0: the captured odds. -/
def ppp_bet_final_odds (today target : ℤ) (hist? : Option ℚ)
    (signal? : Option String) (choice : String) : ℚ :=
  match ppp_combined_odds today target hist? signal? with
  | .error _ => 1
  | .ok comb =>
    let c := if choice = "PLUIE" then comb.combined_pluie
             else comb.combined_pas_pluie
    let fo := if ¬ (c = 0) then c else if ¬ (comb.base_odds = 0) then comb.base_odds else 0
    if 0 < fo then fo else 1

/-- The insert-plus-debit commit of a successful `ppp_bet`: append the
ACTIVE wager and debit the stored balance
(`SET points = COALESCE(points, 500.0) - :amt`). -/
def ppp_bet_insert (uid : ℕ) (scope : String) (target : ℤ)
    (choice : String) (amount odds : ℚ) (hhmm : String)
    (targetUtc : Option ℤ) (nextId : ℕ) (db : DB) : DB :=
  { db with
    ppp_bets := db.ppp_bets ++
      [{ id := nextId, user_id := uid, bet_date := target,
         choice := choice, amount := amount, odds := odds,
         status := "ACTIVE", station_id := scope,
         locked_for_trade := false, funded_from_balance := true,
         target_time := hhmm, target_utc := targetUtc, verdict := none,
         outcome := none, preset_outcome := none, observed_mm := none,
         observed_at := none, resolved_at := none }],
    users := db.users.map (fun u =>
      if u.id = uid then { u with points := some (u.points.getD 500 - amount) }
      else u) }

inductive PPPBetErr
  | invalid_choice_amount
  | too_soon
  | too_far
  | opposite_conflict
  | slot_limit
  | insufficient_budget
  deriving DecidableEq

/-- The `ppp_bet` endpoint, validations in source order. -/
def ppp_bet (uid : ℕ) (scope : String) (target : ℤ) (choice : String)
    (amount0 : ℚ) (hhmm : String) (today : ℤ) (hist? : Option ℚ)
    (signal? : Option String) (targetUtc : Option ℤ) (nextId : ℕ)
    (reconcile : Bool) (db : DB) : Except PPPBetErr DB :=
  let amount := round2 amount0
  if ¬ (choice = "PLUIE" ∨ choice = "PAS_PLUIE") ∨ amount ≤ 0 then
    .error .invalid_choice_amount
  else if target - today < 1 then .error .too_soon
  else if 31 < target - today then .error .too_far
  else
    let odds := ppp_bet_final_odds today target hist? signal? choice
    if ∃ b ∈ ppp_existing_bets db uid target scope,
        (bet_hhmm b).take 5 = hhmm ∧ upperStr b.choice = ppp_opposite choice
      then .error .opposite_conflict
    else if hhmm ∉ ppp_hours_set db uid target scope ∧
        3 ≤ (ppp_hours_set db uid target scope).length then
      .error .slot_limit
    else
      let grem := remaining_points reconcile db uid
      if grem + 1/1000000 < amount then .error .insufficient_budget
      else .ok (ppp_bet_insert uid scope target choice amount odds hhmm
        targetUtc nextId db)

/-- C5: an opposite-choice wager at an occupied (user, date, scope,
time) key is rejected; a wager opening a fourth distinct time slot is
rejected; an additional same-choice stake on an existing slot passes
the slot checks and is inserted with the stored balance debited. -/
theorem ppp_bet_slot_rules :
    (∀ (uid : ℕ) (scope : String) (target : ℤ) (choice : String)
        (amount0 : ℚ) (hhmm : String) (today : ℤ) (hist? : Option ℚ)
        (signal? : Option String) (targetUtc : Option ℤ) (nextId : ℕ)
        (reconcile : Bool) (db : DB) (b : PPPBetRow),
      (choice = "PLUIE" ∨ choice = "PAS_PLUIE") → 0 < round2 amount0 →
      1 ≤ target - today → target - today ≤ 31 →
      b ∈ ppp_existing_bets db uid target scope →
      (bet_hhmm b).take 5 = hhmm → upperStr b.choice = ppp_opposite choice →
      ppp_bet uid scope target choice amount0 hhmm today hist? signal?
        targetUtc nextId reconcile db = .error .opposite_conflict) ∧
    (∀ (uid : ℕ) (scope : String) (target : ℤ) (choice : String)
        (amount0 : ℚ) (hhmm : String) (today : ℤ) (hist? : Option ℚ)
        (signal? : Option String) (targetUtc : Option ℤ) (nextId : ℕ)
        (reconcile : Bool) (db : DB),
      (choice = "PLUIE" ∨ choice = "PAS_PLUIE") → 0 < round2 amount0 →
      1 ≤ target - today → target - today ≤ 31 →
      (¬ ∃ b ∈ ppp_existing_bets db uid target scope,
        (bet_hhmm b).take 5 = hhmm ∧ upperStr b.choice = ppp_opposite choice) →
      hhmm ∉ ppp_hours_set db uid target scope →
      3 ≤ (ppp_hours_set db uid target scope).length →
      ppp_bet uid scope target choice amount0 hhmm today hist? signal?
        targetUtc nextId reconcile db = .error .slot_limit) ∧
    (∀ (uid : ℕ) (scope : String) (target : ℤ) (choice : String)
        (amount0 : ℚ) (hhmm : String) (today : ℤ) (hist? : Option ℚ)
        (signal? : Option String) (targetUtc : Option ℤ) (nextId : ℕ)
        (reconcile : Bool) (db : DB),
      (choice = "PLUIE" ∨ choice = "PAS_PLUIE") → 0 < round2 amount0 →
      1 ≤ target - today → target - today ≤ 31 →
      (¬ ∃ b ∈ ppp_existing_bets db uid target scope,
        (bet_hhmm b).take 5 = hhmm ∧ upperStr b.choice = ppp_opposite choice) →
      hhmm ∈ ppp_hours_set db uid target scope →
      ¬ (remaining_points reconcile db uid + 1/1000000 < round2 amount0) →
      ppp_bet uid scope target choice amount0 hhmm today hist? signal?
        targetUtc nextId reconcile db
        = .ok (ppp_bet_insert uid scope target choice (round2 amount0)
            (ppp_bet_final_odds today target hist? signal? choice) hhmm
            targetUtc nextId db)) := by
  refine ⟨?_, ?_, ?_⟩
  · intro uid scope target choice amount0 hhmm today hist? signal? targetUtc
      nextId reconcile db b hch ham h1 h31 hb hslot hopp
    simp only [ppp_bet]
    rw [if_neg (by push_neg; exact ⟨hch, by linarith⟩),
        if_neg (by omega), if_neg (by omega),
        if_pos ⟨b, hb, hslot, hopp⟩]
  · intro uid scope target choice amount0 hhmm today hist? signal? targetUtc
      nextId reconcile db hch ham h1 h31 hnoopp hnotin hlen
    simp only [ppp_bet]
    rw [if_neg (by push_neg; exact ⟨hch, by linarith⟩),
        if_neg (by omega), if_neg (by omega), if_neg hnoopp,
        if_pos ⟨hnotin, hlen⟩]
  · intro uid scope target choice amount0 hhmm today hist? signal? targetUtc
      nextId reconcile db hch ham h1 h31 hnoopp hin hbud
    simp only [ppp_bet]
    rw [if_neg (by push_neg; exact ⟨hch, by linarith⟩),
        if_neg (by omega), if_neg (by omega), if_neg hnoopp,
        if_neg (by intro hc; exact hc.1 hin), if_neg hbud]

/-- Concrete state for the C5 witness: user 1 already has ACTIVE PLUIE
wagers on day 10, default scope, at 09:00, 12:00 and 15:00. -/
def slotDB : DB :=
  { users := [{ id := 1, points := some 500, bonus_points := some 0,
                bolts := 0 }],
    ppp_bets :=
      [{ id := 1, user_id := 1, bet_date := 10, choice := "PLUIE",
         amount := 5, odds := 2, status := "ACTIVE", station_id := "",
         locked_for_trade := false, funded_from_balance := true,
         target_time := "09:00", target_utc := none, verdict := none,
         outcome := none, preset_outcome := none, observed_mm := none,
         observed_at := none, resolved_at := none },
       { id := 2, user_id := 1, bet_date := 10, choice := "PLUIE",
         amount := 5, odds := 2, status := "ACTIVE", station_id := "",
         locked_for_trade := false, funded_from_balance := true,
         target_time := "12:00", target_utc := none, verdict := none,
         outcome := none, preset_outcome := none, observed_mm := none,
         observed_at := none, resolved_at := none },
       { id := 3, user_id := 1, bet_date := 10, choice := "PLUIE",
         amount := 5, odds := 2, status := "ACTIVE", station_id := "",
         locked_for_trade := false, funded_from_balance := true,
         target_time := "15:00", target_utc := none, verdict := none,
         outcome := none, preset_outcome := none, observed_mm := none,
         observed_at := none, resolved_at := none }],
    wet_bets := [], boosts := [], listings := [], art_bets := [],
    humidity_obs := [], meteo_obs := [] }

/-- Witness for C5: at `slotDB`, a PAS_PLUIE wager at the occupied
15:00 slot is rejected, a new 16:00 slot is rejected as a fourth slot,
and an additional PLUIE stake at 15:00 succeeds. -/
theorem ppp_bet_slot_rules_witness :
    ppp_bet 1 "" 10 "PAS_PLUIE" 5 "15:00" 0 none none none 99 false slotDB
        = .error .opposite_conflict ∧
    ppp_bet 1 "" 10 "PLUIE" 5 "16:00" 0 none none none 99 false slotDB
        = .error .slot_limit ∧
    ppp_bet 1 "" 10 "PLUIE" 5 "15:00" 0 none none none 99 false slotDB
        = .ok (ppp_bet_insert 1 "" 10 "PLUIE" (round2 5)
            (ppp_bet_final_odds 0 10 none none "PLUIE") "15:00" none 99
            slotDB) :=
  ⟨ppp_bet_slot_rules.1 1 "" 10 "PAS_PLUIE" 5 "15:00" 0 none none none 99
      false slotDB
      { id := 3, user_id := 1, bet_date := 10, choice := "PLUIE",
        amount := 5, odds := 2, status := "ACTIVE", station_id := "",
        locked_for_trade := false, funded_from_balance := true,
        target_time := "15:00", target_utc := none, verdict := none,
        outcome := none, preset_outcome := none, observed_mm := none,
        observed_at := none, resolved_at := none }
      (Or.inr rfl) (by norm_num [round2, round_eq])
      (by norm_num) (by norm_num)
      (by norm_num [ppp_existing_bets, slotDB, List.filter_cons])
      (by decide) (by decide),
   ppp_bet_slot_rules.2.1 1 "" 10 "PLUIE" 5 "16:00" 0 none none none 99
      false slotDB (Or.inl rfl) (by norm_num [round2, round_eq])
      (by norm_num) (by norm_num)
      (by decide) (by decide) (by decide),
   ppp_bet_slot_rules.2.2 1 "" 10 "PLUIE" 5 "15:00" 0 none none none 99
      false slotDB (Or.inl rfl) (by norm_num [round2, round_eq])
      (by norm_num) (by norm_num)
      (by decide) (by decide)
      (by norm_num [remaining_points, slotDB, findUser, List.find?,
        round2, round_eq])⟩

/-!
## Observation lookups

Source: `_first_observation_after` (lines 5829-5856) over
`meteo_obs_hourly`, and `get_observed_humidity_paris` (lines 1277-1311)
over `humidity_obs`.  `ORDER BY ... LIMIT 1` is modelled by scanning
for the extremal timestamp.
-/

/-- The `mm_eff` CASE of `_first_observation_after`: raw millimetres if
present (negatives floored to 0), else 0.1 for weather codes >= 60,
else 0. -/
def mm_eff (o : MeteoObsRow) : ℚ :=
  match o.rain_mm with
  | some mm => if 0 ≤ mm then mm else 0
  | none =>
    match o.code with
    | some c => if 60 ≤ c then 1/10 else 0
    | none => 0

/-- First row by ascending timestamp (ORDER BY ts ASC LIMIT 1). -/
def minObsBy (f : MeteoObsRow → ℤ) (l : List MeteoObsRow) :
    Option MeteoObsRow :=
  l.foldl (fun acc o =>
    match acc with
    | none => some o
    | some a => if f o < f a then some o else acc) none

/-- One station query of `_first_observation_after`. -/
def first_obs_for_station (obs : List MeteoObsRow) (sid : String)
    (utc_from : ℤ) : Option (ℤ × ℚ) :=
  (minObsBy (fun o => o.ts_utc)
    (obs.filter (fun o => o.station_id = sid ∧ utc_from ≤ o.ts_utc))).map
    (fun o => (o.ts_utc, mm_eff o))

/-- `_first_observation_after(station_id, utc_from)`: the literal
station when non-empty, else the lfpg_95 / lfpg_75 candidates in
order. -/
def first_observation_after (obs : List MeteoObsRow) (station_id : String)
    (utc_from : ℤ) : Option (ℤ × ℚ) :=
  let sid := trimStr station_id
  let candidates := if sid = "" then ["lfpg_95", "lfpg_75"] else [sid]
  candidates.foldl (fun acc s =>
    match acc with
    | some r => some r
    | none => first_obs_for_station obs s utc_from) none

/-- First humidity row by ascending time. -/
def minHumBy (l : List HumidityObsRow) : Option HumidityObsRow :=
  l.foldl (fun acc o =>
    match acc with
    | none => some o
    | some a => if o.obs_time < a.obs_time then some o else acc) none

/-- Last humidity row by descending time. -/
def maxHumBy (l : List HumidityObsRow) : Option HumidityObsRow :=
  l.foldl (fun acc o =>
    match acc with
    | none => some o
    | some a => if a.obs_time < o.obs_time then some o else acc) none

/-- `get_observed_humidity_paris(slot_dt)`: first observation inside
[slot, slot + 59m59s], else the most recent at or before the window
end. -/
def get_observed_humidity_paris (obs : List HumidityObsRow) (slot_dt : ℤ)
    (station_id : String) : Option ℚ :=
  let end_utc := slot_dt + 3599
  match minHumBy (obs.filter (fun o => o.station_id = station_id ∧
      slot_dt ≤ o.obs_time ∧ o.obs_time ≤ end_utc)) with
  | some w => some w.humidity
  | none =>
    match maxHumBy (obs.filter (fun o => o.station_id = station_id ∧
        o.obs_time ≤ end_utc)) with
    | some fb => some fb.humidity
    | none => none

/-!
## Hourly (Wet) wager resolution

Source: `resolve_due_wet_bets`, src/mood_speculator_v2.py lines
1313-1381.  `nowHour` is the current Paris time floored to the hour.
When a bet wins, the source calls `credit_points(user, payout)`; that
function is defined nowhere in the repository (the only similarly named
definition is a local `credit_points_exact` inside the gift-transfer
route), so the call raises `NameError`, which the per-bet handler
catches and logs.  The already-assigned resolution fields survive and
are committed, and the wallet is never credited: the model therefore
updates the bet and leaves `users` untouched on the winning branch.
-/

/-- The EXACT / WIN / LOSE decision and the resolution-field update of
one wet bet against an observed humidity. -/
def wet_settle (bet : WetBetRow) (observed : ℚ) (now : ℤ) : WetBetRow :=
  let target := bet.target_pct
  let obs_pct : ℤ := round observed
  let diff := |obs_pct - target|
  let outcome := if obs_pct = target then "EXACT"
                 else if diff ≤ 3 then "WIN" else "LOSE"
  let payout := if obs_pct = target then bet.amount * bet.odds * 2
                else if diff ≤ 3 then bet.amount * bet.odds else 0
  { bet with observed_pct := some obs_pct, outcome := some outcome,
             payout := some payout, status := "RESOLVED",
             resolved_at := some now }

/-- `resolve_due_wet_bets(user)`: resolve this user's ACTIVE bets whose
slot hour has elapsed, skipping slots with no observation; the wallet
credit is lost to the `credit_points` NameError (see above). -/
def resolve_due_wet_bets (uid : ℕ) (nowHour now : ℤ) (station_id : String)
    (db : DB) : DB :=
  let due := db.wet_bets.filter (fun w => w.user_id = uid ∧
    w.status = "ACTIVE" ∧ w.slot_dt ≤ nowHour)
  due.foldl (fun acc bet =>
    match get_observed_humidity_paris acc.humidity_obs bet.slot_dt
        station_id with
    | none => acc
    | some observed =>
      { acc with wet_bets := acc.wet_bets.map (fun w =>
          if w.id = bet.id then wet_settle bet observed now else w) }) db

/-!
## Directional wager resolution

Source: `resolve_ppp_open_bets` (lines 5890-6036) and
`resolve_pending_ppp_bets` (lines 6038-6134).

The open-bets query selects a column `preset_outcome` that no schema
statement ever creates (neither the `PPPBet` model nor any
`ALTER TABLE`); on the live SQLite file the SELECT raises and the
caller catches the error.  The embedding models the resolver logic as
the query text reads it, with `preset_outcome` an always-readable
optional column.  The pending resolver instead aliases the real
`outcome` column as its preset, and is faithful as written.

The boost lookup keys on the first 10 characters of the local target
datetime string, which is the wager's `bet_date`.
-/

/-- A resolution decision of the open-bets resolver: a preset verdict,
or an observed outcome with its observation. -/
inductive OpenRes
  | preset (verdict : String)
  | observed (obs_at : ℤ) (mm : ℚ) (outcome verdict : String)
  deriving DecidableEq

def openResVerdict : OpenRes → String
  | .preset v => v
  | .observed _ _ _ v => v

/-- The WHERE clause of the open-bets snapshot SELECT. -/
def openSel (scope? : Option String) (today : ℤ) (b : PPPBetRow) : Prop :=
  b.status = "ACTIVE" ∧ b.bet_date ≤ today ∧
  ¬ (trimStr b.target_time = "") ∧
  (match scope? with
   | some s => b.station_id = s
   | none => True)

instance (scope? : Option String) (today : ℤ) (b : PPPBetRow) :
    Decidable (openSel scope? today b) := by
  unfold openSel
  cases scope? <;> infer_instance

/-- The skip-or-resolve decision the open-bets loop takes on one
snapshot row: invalid choice, unparseable target or missing observation
skip the row; otherwise a preset outcome or the first observation at or
after the target decides the verdict. -/
def openAction (obs : List MeteoObsRow) (r : PPPBetRow) : Option OpenRes :=
  if ¬ (upperStr r.choice = "PLUIE" ∨ upperStr r.choice = "PAS_PLUIE") then
    none
  else
    match r.target_utc with
    | none => none
    | some t =>
      let preset := trimStr (upperStr (r.preset_outcome.getD ""))
      if preset = "PLUIE" ∨ preset = "PAS_PLUIE" then
        some (.preset (if preset = upperStr r.choice then "WIN" else "LOSE"))
      else
        match first_observation_after obs r.station_id t with
        | none => none
        | some (ts, mm) =>
          let outcome := if 0 < mm then "PLUIE" else "PAS_PLUIE"
          some (.observed ts mm outcome
            (if outcome = upperStr r.choice then "WIN" else "LOSE"))

/-- The UPDATE a resolution writes on the bet row: verdict and status
in the preset case, observation fields as well in the observed case,
always in the same single statement that sets status RESOLVED. -/
def openApplyBet (res : OpenRes) (now : ℤ) (b : PPPBetRow) : PPPBetRow :=
  match res with
  | .preset v =>
    { b with verdict := some v, status := "RESOLVED",
             resolved_at := some now }
  | .observed ts mm outc v =>
    { b with observed_at := some ts, observed_mm := some mm,
             outcome := some outc, verdict := some v,
             status := "RESOLVED", resolved_at := some now }

/-- One iteration of the open-bets loop on snapshot row `r`: update the
bet row, then on WIN re-read amount and odds, add the boost aggregate
for (user, date, scope) and credit `stake * (odds + boost)` to the
stored balance when positive. -/
def openStep (now : ℤ) (acc : DB × ℕ) (r : PPPBetRow) : DB × ℕ :=
  let db := acc.1
  match openAction db.meteo_obs r with
  | none => acc
  | some res =>
    let db1 := { db with ppp_bets := db.ppp_bets.map (fun b =>
      if b.id = r.id then openApplyBet res now b else b) }
    let db2 :=
      if openResVerdict res = "WIN" then
        let boost_total := boost_total_list r.user_id r.bet_date
          r.station_id db1.boosts
        match db1.ppp_bets.find? (fun b => b.id = r.id) with
        | none => db1
        | some b2 =>
          let payout := b2.amount * (b2.odds + boost_total)
          if 0 < payout then
            { db1 with users := db1.users.map (fun u =>
                if u.id = r.user_id then
                  { u with points := some (u.points.getD 0 + payout) }
                else u) }
          else db1
      else db1
    (db2, acc.2 + 1)

/-- `resolve_ppp_open_bets(station_scope)`: snapshot the matching
ACTIVE rows, then fold the per-row step.  Returns the new state and the
update count. -/
def resolve_ppp_open_bets (scope? : Option String) (today now : ℤ)
    (db : DB) : DB × ℕ :=
  (db.ppp_bets.filter (fun b => openSel scope? today b)).foldl
    (openStep now) (db, 0)

/-- The WHERE clause of the pending-bets resolver SELECT. -/
def pendSel (b : PPPBetRow) : Prop :=
  (b.verdict = none ∨ trimStr (b.verdict.getD "") = "") ∧
  b.status = "ACTIVE"

instance (b : PPPBetRow) : Decidable (pendSel b) := by
  unfold pendSel
  infer_instance

/-- One iteration of `resolve_pending_ppp_bets` on snapshot row `r`:
same skip conditions plus the bounded [cutoff, now) retry window, the
`outcome` column read as the preset, and crucially no wallet credit on
any branch. -/
def pendingStep (now_utc cutoff : ℤ) (acc : DB × ℕ) (r : PPPBetRow) :
    DB × ℕ :=
  let db := acc.1
  if ¬ (upperStr r.choice = "PLUIE" ∨ upperStr r.choice = "PAS_PLUIE") then
    acc
  else
    match r.target_utc with
    | none => acc
    | some t =>
      if ¬ (t < now_utc) ∨ t < cutoff then acc
      else
        let preset := trimStr (upperStr (r.outcome.getD ""))
        if preset = "PLUIE" ∨ preset = "PAS_PLUIE" then
          let v := if preset = upperStr r.choice then "WIN" else "LOSE"
          let upd := fun (b : PPPBetRow) => { b with verdict := some v, status := "RESOLVED", resolved_at := some now_utc }
          ({ db with ppp_bets := db.ppp_bets.map (fun b =>
              if b.id = r.id then upd b else b) }, acc.2 + 1)
        else
          match first_observation_after db.meteo_obs r.station_id t with
          | none => acc
          | some (ts, mm) =>
            let outcome := if 0 < mm then "PLUIE" else "PAS_PLUIE"
            let v := if outcome = upperStr r.choice then "WIN" else "LOSE"
            let upd := fun (b : PPPBetRow) => { b with observed_at := some ts, observed_mm := some mm, outcome := some outcome, verdict := some v, status := "RESOLVED", resolved_at := some now_utc }
            ({ db with ppp_bets := db.ppp_bets.map (fun b =>
                if b.id = r.id then upd b else b) }, acc.2 + 1)

/-- `resolve_pending_ppp_bets(max_back_days)`. -/
def resolve_pending_ppp_bets (max_back_days now_utc : ℤ) (db : DB) :
    DB × ℕ :=
  let cutoff := now_utc - max_back_days * 86400
  (db.ppp_bets.filter (fun b => pendSel b)).foldl
    (pendingStep now_utc cutoff) (db, 0)

/-- Concrete state for C1: user 1 with stored points 100 and three
elapsed ACTIVE hourly bets (target 80 percent, stake 10, odds 2) whose
observations read 80, 83 and 85 percent. -/
def wetResDB : DB :=
  { users := [{ id := 1, points := some 100, bonus_points := some 0,
                bolts := 0 }],
    ppp_bets := [],
    wet_bets :=
      [{ id := 1, user_id := 1, slot_dt := 1000, target_pct := 80,
         amount := 10, odds := 2, status := "ACTIVE",
         observed_pct := none, outcome := none, payout := none,
         resolved_at := none, dismissed_at := none },
       { id := 2, user_id := 1, slot_dt := 5000, target_pct := 80,
         amount := 10, odds := 2, status := "ACTIVE",
         observed_pct := none, outcome := none, payout := none,
         resolved_at := none, dismissed_at := none },
       { id := 3, user_id := 1, slot_dt := 9000, target_pct := 80,
         amount := 10, odds := 2, status := "ACTIVE",
         observed_pct := none, outcome := none, payout := none,
         resolved_at := none, dismissed_at := none }],
    boosts := [], listings := [], art_bets := [],
    humidity_obs :=
      [{ station_id := "cdg_07157", obs_time := 1000, humidity := 80 },
       { station_id := "cdg_07157", obs_time := 5100, humidity := 83 },
       { station_id := "cdg_07157", obs_time := 9100, humidity := 85 }],
    meteo_obs := [] }

/-- C1: running the hourly resolver on `wetResDB` marks all three
elapsed bets RESOLVED with the claimed EXACT / WIN / LOSE outcomes and
payouts 40, 20, 0 (stake times odds times 2, stake times odds, 0), but
the winning payouts are never credited: the `user` row keeps its stored
100 points and `remaining_points` is unchanged, because the
`credit_points` call raises NameError (the function does not exist) and
the handler swallows it. -/
theorem resolve_due_wet_bets_resolves_without_credit :
    (resolve_due_wet_bets 1 20000 7777 "cdg_07157" wetResDB).wet_bets.map
        (fun w => (w.status, w.outcome.getD "", w.payout.getD 0,
          w.observed_pct.getD 0))
      = [("RESOLVED", "EXACT", (40 : ℚ), (80 : ℤ)),
         ("RESOLVED", "WIN", 20, 83),
         ("RESOLVED", "LOSE", 0, 85)] ∧
    (resolve_due_wet_bets 1 20000 7777 "cdg_07157" wetResDB).users
      = wetResDB.users ∧
    remaining_points false
        (resolve_due_wet_bets 1 20000 7777 "cdg_07157" wetResDB) 1 = 100 ∧
    remaining_points false wetResDB 1 = 100 := by
  refine ⟨?_, ?_, ?_, ?_⟩ <;>
    norm_num [resolve_due_wet_bets, wet_settle, get_observed_humidity_paris,
      minHumBy, maxHumBy, wetResDB, List.filter_cons, round_eq,
      remaining_points, findUser, List.find?]

/-!
## C8: idempotence of the open-bets resolver

Every resolution step writes status RESOLVED in the same UPDATE that
writes the verdict, and the selection only takes ACTIVE rows, so a
second run selects nothing it resolved and re-skips whatever it
skipped (the skip conditions depend only on the snapshot row and the
untouched observation store).
-/

/-- The cumulative effect of processing snapshot row `r` on a stored
row `b`: untouched on a skip, resolution fields written when the ids
match. -/
def openUpd (obs : List MeteoObsRow) (now : ℤ) (r b : PPPBetRow) :
    PPPBetRow :=
  match openAction obs r with
  | none => b
  | some res => if b.id = r.id then openApplyBet res now b else b

/-- The cumulative effect of a whole snapshot list. -/
def openUpds (obs : List MeteoObsRow) (now : ℤ) (L : List PPPBetRow)
    (b : PPPBetRow) : PPPBetRow :=
  L.foldl (fun x r => openUpd obs now r x) b

lemma openApplyBet_status (res : OpenRes) (now : ℤ) (b : PPPBetRow) :
    (openApplyBet res now b).status = "RESOLVED" := by
  cases res <;> rfl

lemma openApplyBet_id (res : OpenRes) (now : ℤ) (b : PPPBetRow) :
    (openApplyBet res now b).id = b.id := by
  cases res <;> rfl

lemma openStep_char (now : ℤ) (db : DB) (n : ℕ) (r : PPPBetRow) :
    ((openStep now (db, n) r).1.ppp_bets
        = db.ppp_bets.map (fun b => openUpd db.meteo_obs now r b)) ∧
    (openStep now (db, n) r).1.meteo_obs = db.meteo_obs ∧
    (openStep now (db, n) r).1.boosts = db.boosts := by
  cases ha : openAction db.meteo_obs r with
  | none => simp [openStep, ha, openUpd]
  | some res =>
    simp only [openStep, ha, openUpd]
    repeat' split
    all_goals simp

lemma open_fold_char (now : ℤ) (L : List PPPBetRow) :
    ∀ (db : DB) (n : ℕ),
    ((L.foldl (openStep now) (db, n)).1.ppp_bets
        = db.ppp_bets.map (fun b => openUpds db.meteo_obs now L b)) ∧
    (L.foldl (openStep now) (db, n)).1.meteo_obs = db.meteo_obs ∧
    (L.foldl (openStep now) (db, n)).1.boosts = db.boosts := by
  induction L with
  | nil =>
    intro db n
    simp [openUpds]
  | cons r L ih =>
    intro db n
    rw [List.foldl_cons]
    obtain ⟨h1, h2, h3⟩ := openStep_char now db n r
    have hp : openStep now (db, n) r
        = ((openStep now (db, n) r).1, (openStep now (db, n) r).2) := rfl
    rw [hp]
    obtain ⟨g1, g2, g3⟩ := ih (openStep now (db, n) r).1
      (openStep now (db, n) r).2
    refine ⟨?_, by rw [g2, h2], by rw [g3, h3]⟩
    rw [g1, h1, h2, List.map_map]
    rfl

lemma openUpd_id (obs : List MeteoObsRow) (now : ℤ) (r b : PPPBetRow) :
    (openUpd obs now r b).id = b.id := by
  unfold openUpd
  cases openAction obs r with
  | none => rfl
  | some res =>
    by_cases h : b.id = r.id <;> simp [h, openApplyBet_id]

lemma openUpd_eq_or_resolved (obs : List MeteoObsRow) (now : ℤ)
    (r b : PPPBetRow) :
    openUpd obs now r b = b ∨ (openUpd obs now r b).status = "RESOLVED" := by
  unfold openUpd
  cases openAction obs r with
  | none => exact Or.inl rfl
  | some res =>
    by_cases h : b.id = r.id
    · exact Or.inr (by simp [h, openApplyBet_status])
    · exact Or.inl (by simp [h])

lemma openUpd_resolved (obs : List MeteoObsRow) (now : ℤ) (r b : PPPBetRow)
    (hb : b.status = "RESOLVED") :
    (openUpd obs now r b).status = "RESOLVED" := by
  rcases openUpd_eq_or_resolved obs now r b with h | h
  · rw [h]; exact hb
  · exact h

lemma openUpd_hits (obs : List MeteoObsRow) (now : ℤ) (r b : PPPBetRow)
    (ha : ¬ openAction obs r = none) (hid : b.id = r.id) :
    (openUpd obs now r b).status = "RESOLVED" := by
  unfold openUpd
  cases hact : openAction obs r with
  | none => exact absurd hact ha
  | some res => simp [hid, openApplyBet_status]

lemma openUpds_resolved (obs : List MeteoObsRow) (now : ℤ)
    (L : List PPPBetRow) :
    ∀ b : PPPBetRow, b.status = "RESOLVED" →
      (openUpds obs now L b).status = "RESOLVED" := by
  induction L with
  | nil => intro b hb; exact hb
  | cons r L ih =>
    intro b hb
    exact ih (openUpd obs now r b) (openUpd_resolved obs now r b hb)

lemma openUpds_id (obs : List MeteoObsRow) (now : ℤ) (L : List PPPBetRow) :
    ∀ b : PPPBetRow, (openUpds obs now L b).id = b.id := by
  induction L with
  | nil => intro b; rfl
  | cons r L ih =>
    intro b
    rw [show openUpds obs now (r :: L) b
        = openUpds obs now L (openUpd obs now r b) from rfl,
      ih (openUpd obs now r b), openUpd_id]

lemma openUpds_eq_or_resolved (obs : List MeteoObsRow) (now : ℤ)
    (L : List PPPBetRow) :
    ∀ b : PPPBetRow, openUpds obs now L b = b ∨
      (openUpds obs now L b).status = "RESOLVED" := by
  induction L with
  | nil => intro b; exact Or.inl rfl
  | cons r L ih =>
    intro b
    have hstep : openUpds obs now (r :: L) b
        = openUpds obs now L (openUpd obs now r b) := rfl
    rcases openUpd_eq_or_resolved obs now r b with h | h
    · rw [hstep, h]
      exact ih b
    · exact Or.inr (by rw [hstep]; exact openUpds_resolved obs now L _ h)

lemma openUpds_hits (obs : List MeteoObsRow) (now : ℤ)
    (L : List PPPBetRow) :
    ∀ (b r' : PPPBetRow), r' ∈ L → ¬ openAction obs r' = none →
      b.id = r'.id → (openUpds obs now L b).status = "RESOLVED" := by
  induction L with
  | nil =>
    intro b r' hmem
    exact absurd hmem (List.not_mem_nil r')
  | cons a L ih =>
    intro b r' hmem ha hid
    have hstep : openUpds obs now (a :: L) b
        = openUpds obs now L (openUpd obs now a b) := rfl
    rcases List.mem_cons.mp hmem with rfl | hmem2
    · rw [hstep]
      exact openUpds_resolved obs now L _ (openUpd_hits obs now r' b ha hid)
    · rw [hstep]
      exact ih (openUpd obs now a b) r' hmem2 ha
        (by rw [openUpd_id]; exact hid)

lemma open_fold_skip (now : ℤ) :
    ∀ (L : List PPPBetRow) (db : DB),
      (∀ r ∈ L, openAction db.meteo_obs r = none) →
      L.foldl (openStep now) (db, 0) = (db, 0) := by
  intro L
  induction L with
  | nil => intro db h; rfl
  | cons r L ih =>
    intro db h
    have hr := h r (List.mem_cons_self r L)
    have hstep : openStep now (db, 0) r = (db, 0) := by
      simp [openStep, hr]
    rw [List.foldl_cons, hstep]
    exact ih db (fun x hx => h x (List.mem_cons_of_mem r hx))

/-- C8: running the open-bets resolver a second time on the state the
first run produced changes nothing and reports zero updates: every
wager it resolves moves to RESOLVED in the same update that writes the
verdict, so it is never re-selected, and every wager it skipped is
skipped again for the same reason. -/
theorem resolve_ppp_open_bets_idempotent (scope? : Option String)
    (today now now2 : ℤ) (db : DB) :
    resolve_ppp_open_bets scope? today now2
        (resolve_ppp_open_bets scope? today now db).1
      = ((resolve_ppp_open_bets scope? today now db).1, 0) := by
  obtain ⟨h1, h2, h3⟩ :=
    open_fold_char now (db.ppp_bets.filter (fun b => openSel scope? today b))
      db 0
  show ((resolve_ppp_open_bets scope? today now db).1.ppp_bets.filter
      (fun b => openSel scope? today b)).foldl (openStep now2)
      ((resolve_ppp_open_bets scope? today now db).1, 0)
    = ((resolve_ppp_open_bets scope? today now db).1, 0)
  apply open_fold_skip
  intro r' hr'
  have hmem := List.mem_filter.mp hr'
  obtain ⟨hrin, hsel⟩ := hmem
  have hselP : openSel scope? today r' := of_decide_eq_true hsel
  have hobs : (resolve_ppp_open_bets scope? today now db).1.meteo_obs
      = db.meteo_obs := h2
  rw [hobs]
  rw [show (resolve_ppp_open_bets scope? today now db).1.ppp_bets
      = db.ppp_bets.map (fun b => openUpds db.meteo_obs now
        (db.ppp_bets.filter (fun b => openSel scope? today b)) b)
    from h1] at hrin
  obtain ⟨b, hb, hbr⟩ := List.mem_map.mp hrin
  have hstat : r'.status = "ACTIVE" := hselP.1
  rcases openUpds_eq_or_resolved db.meteo_obs now
      (db.ppp_bets.filter (fun b => openSel scope? today b)) b with heq | hres2
  · have hrb : r' = b := by rw [← hbr, heq]
    subst hrb
    have hbS : r' ∈ db.ppp_bets.filter (fun b => openSel scope? today b) :=
      List.mem_filter.mpr ⟨hb, decide_eq_true hselP⟩
    by_contra hne
    have hresolved := openUpds_hits db.meteo_obs now
      (db.ppp_bets.filter (fun b => openSel scope? today b)) r' r' hbS hne rfl
    rw [heq] at hresolved
    rw [hstat] at hresolved
    exact absurd hresolved (by decide)
  · rw [hbr] at hres2
    rw [hstat] at hres2
    exact absurd hres2 (by decide)

/-!
## C2: no resolution path credits the WIN payout

The claim says every resolution path credits
`stake * (captured_odds + boost aggregate)` on WIN.  Neither path can:

* `resolve_ppp_open_bets` (the only path containing a credit UPDATE)
  opens with a snapshot SELECT that reads `COALESCE(preset_outcome,'')`
  from `ppp_bet` (line 5925).  `ppp_bet_columns` below lists every
  column the repository ever creates for that table — the `PPPBet`
  model united with every `ALTER TABLE ppp_bet` / `add_col_if_missing`
  migration — and `preset_outcome` is not among them, so on every
  schema this repository produces the SELECT raises
  `no such column: preset_outcome`; the sole caller (the calendar view,
  line 6568) catches and logs it.  That resolver therefore never
  resolves or credits anything.
* `resolve_pending_ppp_bets` runs against the real schema (its preset
  is the existing `outcome` column) and does resolve WIN wagers, but no
  branch of it updates the `user` table, so the payout is never
  credited there either.
-/

/-- Every column the repository ever creates on table `ppp_bet`: the
`PPPBet` model columns (lines 688-706) united with the startup
migrations (`ALTER TABLE ppp_bet ADD COLUMN ...` at lines 231, 253-256,
263-276 and the `add_col_if_missing` calls at lines 867-872). -/
def ppp_bet_columns : List String :=
  ["id", "user_id", "bet_date", "created_at", "choice", "amount", "odds",
   "status", "result", "station_id", "locked_for_trade",
   "funded_from_balance", "target_time", "verdict", "outcome",
   "observed_mm", "resolved_at", "observed_at", "target_dt"]

lemma pendingStep_users (now_utc cutoff : ℤ) (acc : DB × ℕ)
    (r : PPPBetRow) :
    (pendingStep now_utc cutoff acc r).1.users = acc.1.users := by
  unfold pendingStep
  repeat' (first | split | dsimp only)

lemma pending_fold_users (now_utc cutoff : ℤ) :
    ∀ (L : List PPPBetRow) (acc : DB × ℕ),
      (L.foldl (pendingStep now_utc cutoff) acc).1.users = acc.1.users := by
  intro L
  induction L with
  | nil => intro acc; rfl
  | cons r L ih =>
    intro acc
    rw [List.foldl_cons, ih]
    exact pendingStep_users now_utc cutoff acc r

/-- Concrete failing input for C2: user 7 holds 100 stored points;
wager 3 (stake 10, odds 2) is ACTIVE with a preset PLUIE outcome and an
elapsed target inside the 14-day retry window. -/
def pendDB : DB :=
  { users := [{ id := 7, points := some 100, bonus_points := some 0,
                bolts := 0 }],
    ppp_bets :=
      [{ id := 3, user_id := 7, bet_date := 40, choice := "PLUIE",
         amount := 10, odds := 2, status := "ACTIVE", station_id := "",
         locked_for_trade := false, funded_from_balance := true,
         target_time := "18:00", target_utc := some 5000, verdict := none,
         outcome := some "PLUIE", preset_outcome := none,
         observed_mm := none, observed_at := none, resolved_at := none }],
    wet_bets := [], boosts := [], listings := [], art_bets := [],
    humidity_obs := [], meteo_obs := [] }

/-- C2: the WIN payout is never credited.  The column the crediting
resolver selects does not exist in the schema the repository creates
(so at runtime that resolver always raises and is swallowed), and the
pending-bets maintenance resolver — which does run — changes no stored
balance on any input: on `pendDB` it marks wager 3 RESOLVED with
verdict WIN, yet the balance stays at 100 although the claimed payout
stake times (odds + boost) = 20 is positive. -/
theorem ppp_win_payout_never_credited :
    "preset_outcome" ∉ ppp_bet_columns ∧
    (∀ (max_back_days now_utc : ℤ) (db : DB),
      (resolve_pending_ppp_bets max_back_days now_utc db).1.users
        = db.users) ∧
    (resolve_pending_ppp_bets 14 1000000 pendDB).1.ppp_bets.map
        (fun b => (b.status, b.verdict.getD "")) = [("RESOLVED", "WIN")] ∧
    remaining_points false (resolve_pending_ppp_bets 14 1000000 pendDB).1 7
      = 100 ∧
    remaining_points false pendDB 7 = 100 ∧
    0 < (10 : ℚ) * (2 + boost_total_list 7 40 "" pendDB.boosts) := by
  have hup : upperStr "PLUIE" = "PLUIE" := by decide
  have htrim : trimStr "PLUIE" = "PLUIE" := by decide
  refine ⟨by decide, ?_, ?_, ?_, ?_, ?_⟩
  · intro max_back_days now_utc db
    exact pending_fold_users now_utc (now_utc - max_back_days * 86400) _ _
  all_goals
    norm_num [resolve_pending_ppp_bets, pendingStep, pendDB, pendSel,
      hup, htrim, List.filter_cons, remaining_points, findUser,
      List.find?, boost_total_list, boostMatches]

end MoodSpec
